import Mathlib

/-!
Verification development for the Fashion-Recommendor product-search core.

This file gives a shallow embedding, in Lean 4, of the parts of the code base
that the specification's testable properties talk about:

* `services/product_search_service.py` — the multi-source search orchestrator
  (`HybridProductSearch`): deduplication, price/retailer filtering,
  multi-signal ranking, price-fit scoring, and the per-session circuit
  breaker over failed sources.
* `services/browser_pool.py` — the pooled browser resource manager
  (`ContextPool` / `BrowserPool`), embedded as a labelled transition system.
* `services/http_prefilter.py` — the HTTP pre-filter (`HTTPPreFilter`).
* `services/retailer_patterns.py` — the retailer selector/pattern table and
  `get_all_selectors`, together with the out-of-stock check of
  `services/link_verification_agent.py`.
* `services/ranking_engine.py` — the standalone price-fit scorer.
* `integrations/openserp_client.py` — the rate-limited aggregator client
  (retry loop, single-flight semaphore, inter-request delay).
* `integrations/openserp_manager.py` — the aggregator supervisor's
  health-monitor loop, embedded as an explicit state machine.

Numbers that Python represents as floats are embedded as rationals (`ℚ`);
the claims under study concern the piecewise-linear shape of the scoring
functions and order comparisons, none of which depend on binary rounding.
Stateful, async code is embedded as explicit state passing (folds over event
lists) or as step relations on a state type.
-/

namespace FashionRec

/-! ## String helpers

Python's `str.lower()` and the `needle in haystack` substring test, embedded
character-wise.  All uses in the embedded code apply them to ASCII
identifiers, URLs and error messages, where character-wise lowering agrees
with Python. -/

/-- Embedding of Python `s.lower()` (character-wise). -/
def lowerStr (s : String) : String := ⟨s.data.map Char.toLower⟩

/-- Embedding of Python `needle in haystack` on strings (substring test). -/
def containsSub (needle hay : String) : Bool :=
  hay.data.tails.any (fun t => needle.data.isPrefixOf t)

/-! ## Data model: `contracts/models.py` `Product`

Fields of `Product` that the search / filter / rank code reads.  Metadata
fields never consulted by the orchestrator (category, rating, affiliate
data, …) are omitted.  Defaults mirror the pydantic model's defaults. -/

/-- `contracts/models.py` lines 110–162: the `Product` record (the fields the
orchestrator reads). -/
structure Product where
  id : String := ""
  title : String := ""
  price : Option ℚ := none
  currency : String := "USD"
  url : String := ""
  retailer : Option String := none
  brand : Option String := none
  in_stock : Bool := true
  availability_status : String := "in_stock"
  source : String := "vector_db"
  relevance_score : Option ℚ := none
deriving DecidableEq, Repr

/-- The budget dict passed to `search_multi_source`: `soft_cap` / `hard_cap`
keys may be absent (`dict.get` with defaults 150 / 300 in the source). -/
structure Budget where
  soft_cap : Option ℚ := none
  hard_cap : Option ℚ := none
deriving DecidableEq, Repr

/-- `budget.get("soft_cap", 150)` (product_search_service.py line 1078). -/
def Budget.softCap (b : Budget) : ℚ := b.soft_cap.getD 150

/-- `budget.get("hard_cap", 300)` (product_search_service.py lines 244, 1079). -/
def Budget.hardCap (b : Budget) : ℚ := b.hard_cap.getD 300

/-! ## Orchestrator: `HybridProductSearch._deduplicate_products`
(product_search_service.py lines 1002–1032)

The Python function keeps a dict `seen_urls` keyed by the lowercased URL and
a list `unique`.  On a duplicate URL it replaces the dict entry when the new
product has the higher `relevance_score or 0`, but the returned list
`unique` received only the first-seen product and is never updated. -/

/-- Python `product.relevance_score or 0` (`None` and `0.0` are both falsy,
giving `0` either way). -/
def relevanceOrZero (p : Product) : ℚ := p.relevance_score.getD 0

/-- Dict lookup `seen_urls[url]` over the association-list embedding. -/
def lookupSeen (seen : List (String × Product)) (url : String) : Option Product :=
  (seen.find? (fun e => e.1 == url)).map Prod.snd

/-- Dict update `seen_urls[url] = product` over the association-list embedding. -/
def updateSeen : List (String × Product) → String → Product → List (String × Product)
  | [], _, _ => []
  | (u, q) :: rest, url, p =>
      if u == url then (u, p) :: rest else (u, q) :: updateSeen rest url p

/-- The loop of `_deduplicate_products`: walks the products, maintaining
`seen_urls`; a product is appended to the output only on first sight of its
lowercased URL.  On a repeat URL, only the dict entry is (possibly)
replaced — the output is unchanged. -/
def dedupAux : List Product → List (String × Product) → List Product
  | [], _ => []
  | p :: rest, seen =>
      let url := lowerStr p.url
      match lookupSeen seen url with
      | some existing =>
          if relevanceOrZero p > relevanceOrZero existing then
            dedupAux rest (updateSeen seen url p)
          else
            dedupAux rest seen
      | none => p :: dedupAux rest ((url, p) :: seen)

/-- `HybridProductSearch._deduplicate_products` (lines 1002–1032). -/
def deduplicate_products (products : List Product) : List Product :=
  dedupAux products []

/-! ## Orchestrator: `HybridProductSearch._apply_filters`
(product_search_service.py lines 1034–1059) -/

/-- The price test of `_apply_filters`: a product is dropped when it has a
price and that price exceeds `max_price`; products without a price pass. -/
def priceOk (max_price : ℚ) (p : Product) : Bool :=
  match p.price with
  | some pr => !(decide (pr > max_price))
  | none => true

/-- The retailer test of `_apply_filters`: applied only when the allow-list
is truthy (present and nonempty) and `product.retailer` is truthy (present
and nonempty); matching is case-insensitive list membership. -/
def retailerOk (allow : Option (List String)) (p : Product) : Bool :=
  match allow, p.retailer with
  | some al, some r =>
      if al.isEmpty || r == "" then true
      else (al.map lowerStr).contains (lowerStr r)
  | _, _ => true

/-- `HybridProductSearch._apply_filters` (lines 1034–1059). -/
def apply_filters (products : List Product) (max_price : ℚ)
    (allow : Option (List String)) : List Product :=
  products.filter (fun p => priceOk max_price p && retailerOk allow p)

/-! ## Orchestrator: `HybridProductSearch._score_price_fit`
(product_search_service.py lines 1125–1148) -/

/-- `HybridProductSearch._score_price_fit`: `0.3` for unknown price, `0` above
the hard cap, `0.8 + (price/soft_cap)*0.2` at or below the soft cap, and
`0.8 - ((price-soft_cap)/(hard_cap-soft_cap))*0.6` in between. -/
def score_price_fit (price : Option ℚ) (soft_cap hard_cap : ℚ) : ℚ :=
  match price with
  | none => 3/10
  | some p =>
      if p > hard_cap then 0
      else if p ≤ soft_cap then 8/10 + (p / soft_cap) * (2/10)
      else 8/10 - ((p - soft_cap) / (hard_cap - soft_cap)) * (6/10)

/-! ## Orchestrator: `HybridProductSearch._rank_products`
(product_search_service.py lines 1061–1123) -/

/-- The `source_scores` dict (lines 1096–1105). -/
def source_scores : List (String × ℚ) :=
  [("openserp", 1), ("claude_web_search", 98/100), ("searchapi_shopping", 95/100),
   ("web_search", 90/100), ("asos", 85/100), ("google_shopping", 80/100),
   ("retailed_io", 92/100), ("vector_db", 70/100)]

/-- `source_scores.get(product.source, 0.5)` (line 1106). -/
def sourceScore (s : String) : ℚ :=
  ((source_scores.find? (fun e => e.1 == s)).map Prod.snd).getD (1/2)

/-- The per-product score accumulated by `_rank_products` (lines 1084–1117):
relevance (30%, skipped when falsy), price fit (25%), source priority (20%),
in-stock bonus (15%), exact brand-preference match (10%). -/
def rank_score (soft_cap hard_cap : ℚ) (preferred_brands : List String)
    (p : Product) : ℚ :=
  (match p.relevance_score with
   | some r => if r ≠ 0 then r * (3/10) else 0
   | none => 0)
  + score_price_fit p.price soft_cap hard_cap * (25/100)
  + sourceScore p.source * (20/100)
  + (if p.in_stock then 15/100 else 0)
  + (match p.brand with
     | some b =>
        if preferred_brands ≠ [] ∧ b ≠ "" ∧ b ∈ preferred_brands then 1/10 else 0
     | none => 0)

/-- `HybridProductSearch._rank_products` (lines 1061–1123): score every
product, stable-sort the `(score, product)` pairs by descending score, and
return the products.  Python's stable `list.sort` is embedded as
`List.mergeSort` (also stable). -/
def rank_products (products : List Product) (budget : Budget)
    (preferred_brands : List String) : List Product :=
  let soft := budget.softCap
  let hard := budget.hardCap
  let scored := products.map (fun p => (rank_score soft hard preferred_brands p, p))
  let sorted := scored.mergeSort (fun a b => decide (b.1 ≤ a.1))
  sorted.map Prod.snd

/-- The deterministic tail of `HybridProductSearch.search_multi_source`
(lines 395–414): starting from the merged per-source results
`all_products`, deduplicate, filter by `max_price = budget.get("hard_cap",
300)` and the retailer allow-list, rank, and return the top `k`.  (When link
verification is disabled — `config.ENABLE_LINK_VERIFICATION` false — the
code runs exactly this tail on the merged results; link verification only
changes which products reach the merge, and consults no `Product` field
used below.) -/
def search_pipeline (all_products : List Product) (budget : Budget)
    (allow : Option (List String)) (preferred_brands : List String)
    (k : Nat) : List Product :=
  let max_price := budget.hardCap
  let unique := deduplicate_products all_products
  let filtered := apply_filters unique max_price allow
  let ranked := rank_products filtered budget preferred_brands
  ranked.take k

/-! ## Ranking engine: `RankingEngine._score_price_fit`
(ranking_engine.py lines 105–119) -/

/-- `RankingEngine._score_price_fit`: like the orchestrator's scorer but
clamped with `min(1.0, ...)` below the soft cap and `max(0.2, ...)` between
the caps; `0` strictly above the hard cap. -/
def score_price_fit_engine (price soft_cap hard_cap : ℚ) : ℚ :=
  if price > hard_cap then 0
  else if price ≤ soft_cap then min 1 (8/10 + (price / soft_cap) * (2/10))
  else max (2/10) (8/10 - ((price - soft_cap) / (hard_cap - soft_cap)) * (6/10))

/-! ## Orchestrator circuit breaker
(`product_search_service.py` lines 63–97, 246–338)

`HybridProductSearch.__init__` creates `self._failed_sources = set()` once
per session.  `search_multi_source` fans out: for each source, a task is
created only when the source is enabled and not in `_failed_sources`
(lines 250–287); after the gather, exceptions are classified by message
substrings and the matching source name is added to `_failed_sources`
(lines 300–338).  Nothing ever removes from the set. -/

/-- The enable flags consulted by the fan-out step (set in `__init__`): some
are hardcoded `False` in the source, but the fan-out logic is uniform in
them. -/
structure SearchConfig where
  enable_openserp : Bool
  has_claude_client : Bool
  enable_visual_scraping : Bool
  enable_asos : Bool
  enable_oxylabs : Bool
  enable_searchapi : Bool
  enable_retailed : Bool
  enable_vector_db : Bool
  enable_google_shopping : Bool
deriving DecidableEq, Repr

/-- The sources for which `search_multi_source` creates tasks, given the
session's `_failed_sources` (lines 246–287).  Mirrors the source order,
including the `elif` coupling oxylabs/searchapi and the missing
`_failed_sources` guard on `vector_db` (which no classification branch ever
disables). -/
def selected_sources (cfg : SearchConfig) (failed : List String) : List String :=
  (if cfg.enable_openserp && !failed.contains "openserp" then ["openserp"] else []) ++
  (if cfg.has_claude_client && !failed.contains "claude_web_search" then ["claude_web_search"] else []) ++
  (if cfg.enable_visual_scraping && !failed.contains "visual_scraping" then ["visual_scraping"] else []) ++
  (if cfg.enable_asos && !failed.contains "asos" then ["asos"] else []) ++
  (if cfg.enable_oxylabs && !failed.contains "oxylabs" then ["oxylabs"]
   else if cfg.enable_searchapi && !failed.contains "searchapi" then ["searchapi"] else []) ++
  (if cfg.enable_retailed && !failed.contains "retailed" then ["retailed"] else []) ++
  (if cfg.enable_vector_db then ["vector_db"] else []) ++
  (if cfg.enable_google_shopping && !failed.contains "google_shopping" then ["google_shopping"] else [])

/-- Python `set.add` over the list embedding of `_failed_sources`. -/
def addFailed (failed : List String) (s : String) : List String :=
  if failed.contains s then failed else s :: failed

/-- The error-classification step for one failed task (lines 300–338): match
the exception message against `400/Bad Request`, `403/Forbidden`,
`401/Unauthorized`, then against lowercased source-name substrings, and add
the matched source to `_failed_sources`. -/
def classify_error (failed : List String) (msg : String) : List String :=
  let low := lowerStr msg
  if containsSub "400 Client Error" msg || containsSub "Bad Request" msg then
    if containsSub "oxylabs" low then addFailed failed "oxylabs"
    else if containsSub "searchapi" low then addFailed failed "searchapi"
    else if containsSub "retailed" low then addFailed failed "retailed"
    else if containsSub "google" low || containsSub "customsearch" low then
      addFailed failed "google_shopping"
    else failed
  else if containsSub "403" msg || containsSub "Forbidden" msg then
    if containsSub "oxylabs" low then addFailed failed "oxylabs"
    else if containsSub "asos" low then addFailed failed "asos"
    else if containsSub "retailed" low then addFailed failed "retailed"
    else failed
  else if containsSub "401" msg || containsSub "Unauthorized" msg then
    if containsSub "oxylabs" low then addFailed failed "oxylabs"
    else if containsSub "searchapi" low then addFailed failed "searchapi"
    else if containsSub "retailed" low then addFailed failed "retailed"
    else failed
  else failed

/-- Classification over all exception messages of one `search_multi_source`
call (the loop at lines 296–338). -/
def classify_errors (failed : List String) (msgs : List String) : List String :=
  msgs.foldl classify_error failed

/-- The only source names any classification branch can add. -/
def disableable_sources : List String :=
  ["oxylabs", "searchapi", "retailed", "google_shopping", "asos"]

/-- The session's `_failed_sources` after the first `n` calls of the
session, where `calls` lists each call's exception messages
(`_failed_sources` starts empty in `__init__`, line 74). -/
def session_failed (calls : List (List String)) : List String :=
  calls.foldl classify_errors []

/-! ## Browser pool: `services/browser_pool.py`

`BrowserPool` owns `pool_size` (`P`) browsers, each with a `ContextPool` of
`contexts_per_browser` (`C`) contexts held in an `asyncio.Queue(maxsize=C)`
(line 53), pre-filled with `C` contexts by `initialize` (lines 63–65).
`BrowserPool.acquire_context` (lines 214–232) picks a browser by round-robin
under a lock, then `await`s that pool's `acquire` — `self._contexts.get()`
(line 138), which suspends when the queue is empty and never raises
(`get_nowait`, the raising variant, is not used).  `release_context`
(lines 234–237 and 140–144) puts the context back on its owning queue.

The embedding is a labelled transition system: per browser `i` we track how
many contexts sit in its queue (`avail i`) and how many are leased out
(`leased i`); `rr` is `_round_robin_index`. -/

/-- State of the browser pool: queue occupancy and outstanding leases per
browser index, plus the round-robin cursor. -/
structure PoolState where
  avail : Nat → Nat
  leased : Nat → Nat
  rr : Nat

/-- Pool state after `initialize`: every queue holds all `C` contexts of its
browser, nothing is leased, `_round_robin_index = 0` (lines 63–65, 177). -/
def initPool (C : Nat) : PoolState :=
  { avail := fun _ => C, leased := fun _ => 0, rr := 0 }

/-- Result of an `acquire_context` attempt.  `failure` mirrors the raising
path that `asyncio.Queue.get_nowait()` would have — the code uses the
awaiting `get()` (line 138), so this outcome must never occur. -/
inductive AcquireOutcome
  | granted
  | blocked
  | failure
deriving DecidableEq, Repr

/-- What an `acquire_context` call does in state `s`: the round-robin browser
is `s.rr % P`; if its queue is nonempty the context is handed out, otherwise
the caller suspends on `queue.get()`. -/
def acquire_outcome (P : Nat) (s : PoolState) : AcquireOutcome :=
  if 0 < s.avail (s.rr % P) then .granted else .blocked

/-- The transitions of the pool (`acquire_context` granted, `acquire_context`
suspended on an empty queue, `release_context`). -/
inductive PoolStep (P C : Nat) : PoolState → PoolState → Prop
  | acquire (s : PoolState) (h : 0 < s.avail (s.rr % P)) :
      PoolStep P C s
        { avail := Function.update s.avail (s.rr % P) (s.avail (s.rr % P) - 1),
          leased := Function.update s.leased (s.rr % P) (s.leased (s.rr % P) + 1),
          rr := (s.rr + 1) % P }
  | acquireBlocked (s : PoolState) (h : s.avail (s.rr % P) = 0) :
      PoolStep P C s { s with rr := (s.rr + 1) % P }
  | release (s : PoolState) (i : Nat) (hi : i < P) (h : 0 < s.leased i) :
      PoolStep P C s
        { s with avail := Function.update s.avail i (s.avail i + 1),
                 leased := Function.update s.leased i (s.leased i - 1) }

/-- Reachability of pool states from the initialized pool. -/
inductive PoolReach (P C : Nat) : PoolState → Prop
  | init : PoolReach P C (initPool C)
  | step {s t : PoolState} : PoolReach P C s → PoolStep P C s t → PoolReach P C t

/-- Total number of contexts leased out across all `P` browsers. -/
def totalLeased (P : Nat) (s : PoolState) : Nat :=
  (Finset.range P).sum s.leased

/-! ## HTTP pre-filter: `services/http_prefilter.py`

`HTTPPreFilter._check_single` (lines 173–220) GETs a URL, parses JSON-LD,
and passes the candidate only when `details.in_stock` ended up true;
`filter_batch` (lines 103–171) then applies the optional brand/price
filters.  The embedding starts from the parsed page: HTML/JSON-LD parsing
is abstracted into a `PageData` record holding the extracted JSON-LD
product (the fields `_parse_json_ld` reads), since the claims concern the
keep/reject decision, not HTML parsing. -/

/-- A JSON-LD `brand` value: a plain string or an object whose `name` is
read (`_parse_json_ld` lines 273–278; `brand_data.get("name")` may be
absent). -/
inductive BrandVal
  | str (s : String)
  | obj (name : Option String)
deriving DecidableEq, Repr

/-- One JSON-LD offer as read by `_parse_offers` (lines 296–329).  `price`
is the already-converted float (a `price` field that fails `float()` is
embedded as `none`, like an absent one — the `except` at line 309 leaves
`details.price` unchanged). -/
structure Offer where
  price : Option ℚ := none
  priceCurrency : Option String := none
  availability : Option String := none
deriving DecidableEq, Repr

/-- The JSON-LD product fields `_parse_json_ld` reads.  `offers` is the
single-dict-or-array already normalized to a list (line 299).  `name`,
`sku` and `image` only fill metadata fields and are omitted. -/
structure JsonLdProduct where
  brand : Option BrandVal := none
  offers : Option (List Offer) := none
deriving DecidableEq, Repr

/-- A fetched page as `_check_single` sees it after the GET and parse. -/
structure PageData where
  status : Nat
  jsonLd : Option JsonLdProduct := none
deriving DecidableEq, Repr

/-- The outcome of the GET in `_check_single`: a response, a timeout
(line 214), or another exception (line 217, by exception type name). -/
inductive FetchResult
  | ok (page : PageData)
  | timeout
  | failed (exnName : String)
deriving DecidableEq, Repr

/-- `HTTPPreFilter.AVAILABILITY_IN_STOCK` (lines 75–78). -/
def AVAILABILITY_IN_STOCK : List String :=
  ["instock", "in stock", "https://schema.org/instock", "available", "in_stock"]

/-- `HTTPPreFilter.AVAILABILITY_OUT_OF_STOCK` (lines 80–83). -/
def AVAILABILITY_OUT_OF_STOCK : List String :=
  ["outofstock", "out of stock", "https://schema.org/outofstock", "soldout",
   "sold out", "unavailable", "out_of_stock"]

/-- The `ProductDetails` fields that drive the keep/reject decision
(dataclass at lines 32–56; metadata-only fields omitted).  Defaults mirror
the dataclass: `in_stock = False`, `passed_prefilter = False`. -/
structure ProductDetails where
  brand : Option String := none
  price : Option ℚ := none
  currency : String := "USD"
  availability : Option String := none
  in_stock : Bool := false
  http_status : Nat := 0
  json_ld_found : Bool := false
  passed_prefilter : Bool := false
  rejection_reason : Option String := none
deriving DecidableEq, Repr

/-- Python `f"...{optional}..."` rendering of an optional string (`None`
prints as `None`). -/
def optStr (o : Option String) : String := o.getD "None"

/-- The body of one iteration of `HTTPPreFilter._parse_offers`
(lines 301–325, before the break test): record price and currency;
lowercase the availability and set `in_stock` if an in-stock term occurs as
a substring, else clear it if an out-of-stock term occurs. -/
def parse_offer_step (o : Offer) (d : ProductDetails) : ProductDetails :=
  let d := match o.price with
    | some p => { d with price := some p }
    | none => d
  let d := match o.priceCurrency with
    | some c => { d with currency := c }
    | none => d
  match o.availability with
  | some a =>
      let av := lowerStr a
      let d := { d with availability := some av }
      if AVAILABILITY_IN_STOCK.any (fun t => containsSub t av) then
        { d with in_stock := true }
      else if AVAILABILITY_OUT_OF_STOCK.any (fun t => containsSub t av) then
        { d with in_stock := false }
      else d
  | none => d

/-- `HTTPPreFilter._parse_offers` (lines 296–329): apply the iteration body
offer by offer, stopping after the first offer that left a price recorded
(the `break` at lines 327–329). -/
def parse_offers : List Offer → ProductDetails → ProductDetails
  | [], d => d
  | o :: rest, d =>
      match (parse_offer_step o d).price with
      | some _ => parse_offer_step o d
      | none => parse_offers rest (parse_offer_step o d)

/-- `HTTPPreFilter._parse_json_ld` (lines 266–294), restricted to the fields
that feed the decision: brand (string or object `name`, possibly `None`)
and the offers. -/
def parse_json_ld (j : JsonLdProduct) (d : ProductDetails) : ProductDetails :=
  let d := match j.brand with
    | some (.obj nm) => { d with brand := nm }
    | some (.str s) => { d with brand := some s }
    | none => d
  match j.offers with
  | some offers => parse_offers offers d
  | none => d

/-- `HTTPPreFilter._check_single` (lines 173–220): non-200 responses are
rejected with the status as reason; otherwise the JSON-LD is parsed and the
candidate passes exactly when `in_stock` ended up true, else it is rejected
with `"Not in stock: ..."`.  Timeouts and other exceptions reject. -/
def check_single (fetch : FetchResult) : ProductDetails :=
  match fetch with
  | .timeout => { rejection_reason := some "HTTP timeout" }
  | .failed n => { rejection_reason := some ("Error: " ++ n) }
  | .ok page =>
      let d : ProductDetails := { http_status := page.status }
      if page.status ≠ 200 then
        { d with rejection_reason := some ("HTTP " ++ toString page.status) }
      else
        let d := match page.jsonLd with
          | some j => parse_json_ld j { d with json_ld_found := true }
          | none => d
        if d.in_stock then { d with passed_prefilter := true }
        else { d with rejection_reason := some ("Not in stock: " ++ optStr d.availability) }

/-- The in-stock bit that `_check_single` computes from the page's JSON-LD
(false when there is no JSON-LD product). -/
def availability_in_stock_flag (page : PageData) : Bool :=
  match page.jsonLd with
  | some j =>
      (parse_json_ld j { http_status := page.status, json_ld_found := true }).in_stock
  | none => false

/-- The per-result filters of `filter_batch` (lines 139–161): drop results
that did not pass `_check_single`; then the brand filter (substring match,
skipped unless both `required_brand` and `result.brand` are truthy) and the
price filter (skipped unless both `max_price` and `result.price` are truthy
— note a price of `0` is falsy in Python and bypasses the filter). -/
def keep_after_filters (required_brand : Option String) (max_price : Option ℚ)
    (d : ProductDetails) : Bool :=
  d.passed_prefilter &&
  (match required_brand, d.brand with
   | some rb, some b =>
      if rb == "" || b == "" then true
      else containsSub (lowerStr rb) (lowerStr b)
   | _, _ => true) &&
  (match max_price, d.price with
   | some mp, some pr =>
      if mp == 0 || pr == 0 then true else !(decide (pr > mp))
   | _, _ => true)

/-- `HTTPPreFilter.filter_batch` (lines 103–171), applied to the per-URL
`_check_single` results. -/
def filter_batch (results : List ProductDetails) (required_brand : Option String)
    (max_price : Option ℚ) : List ProductDetails :=
  results.filter (keep_after_filters required_brand max_price)

/-! ## Retailer patterns: `services/retailer_patterns.py`

The pattern table (lines 36–337), the universal fallback (lines 341–421),
`detect_retailer` (lines 424–443), `is_out_of_stock_text` (lines 460–472)
and `get_all_selectors` (lines 475–497), plus the out-of-stock check of
`LinkVerificationAgent._perform_page_checks` (link_verification_agent.py
lines 248–255), which requests `get_all_selectors(pattern, "out_of_stock")`. -/

/-- The `RetailerPattern` dataclass (retailer_patterns.py lines 22–32). -/
structure RetailerPattern where
  name : String
  domain_patterns : List String
  add_to_cart_selectors : List String
  price_selectors : List String
  out_of_stock_patterns : List String
  product_title_selectors : List String
  size_selectors : Option (List String) := none
  color_selectors : Option (List String) := none
deriving DecidableEq, Repr

/-- `RETAILER_PATTERNS["nordstrom"]` (lines 37–66). -/
def nordstromPattern : RetailerPattern :=
  { name := "Nordstrom",
    domain_patterns := ["nordstrom.com", "nordstromrack.com"],
    add_to_cart_selectors :=
      ["[data-test-id=\x27add-to-bag\x27]", "button[id*=\x27addToBag\x27]",
       "button:has-text(\x27Add to Bag\x27)", "[aria-label*=\x27Add to Bag\x27]"],
    price_selectors :=
      ["[data-test=\x27product-price\x27]", "[class*=\x27price\x27] span",
       ".product-price", "[aria-label*=\x27Price\x27]"],
    out_of_stock_patterns :=
      ["out of stock", "sold out", "not available", "currently unavailable",
       "notify me when available"],
    product_title_selectors :=
      ["h1[data-test=\x27product-title\x27]", "h1.product-title", "h1[id*=\x27title\x27]"],
    size_selectors := some ["[data-test=\x27size-selector\x27]", "select[name=\x27size\x27]"],
    color_selectors := some ["[data-test=\x27color-selector\x27]", "[class*=\x27color-swatch\x27]"] }

/-- `RETAILER_PATTERNS["macys"]` (lines 68–93). -/
def macysPattern : RetailerPattern :=
  { name := "Macy\x27s",
    domain_patterns := ["macys.com"],
    add_to_cart_selectors :=
      ["#addToBagButton", "button[data-auto=\x27add-to-bag\x27]",
       "button:has-text(\x27Add to Bag\x27)", "[id*=\x27addToBag\x27]"],
    price_selectors :=
      ["[data-auto=\x27product-price\x27]", ".price", "[class*=\x27product-price\x27]",
       "span[class*=\x27price\x27]"],
    out_of_stock_patterns :=
      ["out of stock", "sold out", "unavailable", "not available online"],
    product_title_selectors :=
      ["h1[data-auto=\x27product-title\x27]", "h1.product-title"] }

/-- `RETAILER_PATTERNS["asos"]` (lines 95–118). -/
def asosPattern : RetailerPattern :=
  { name := "ASOS",
    domain_patterns := ["asos.com"],
    add_to_cart_selectors :=
      ["[data-test-id=\x27add-button\x27]", "button[data-auto-id=\x27add-to-bag\x27]",
       "button:has-text(\x27Add to bag\x27)", "[class*=\x27add-button\x27]"],
    price_selectors :=
      ["[data-testid=\x27current-price\x27]", "[class*=\x27product-price\x27]",
       "span[data-id=\x27current-price\x27]"],
    out_of_stock_patterns := ["out of stock", "sold out", "not available"],
    product_title_selectors := ["h1[class*=\x27product-title\x27]", "h1"] }

/-- `RETAILER_PATTERNS["zara"]` (lines 120–143). -/
def zaraPattern : RetailerPattern :=
  { name := "Zara",
    domain_patterns := ["zara.com"],
    add_to_cart_selectors :=
      ["button[class*=\x27add\x27]", "button:has-text(\x27Add\x27)",
       "[data-qa-action=\x27add-to-cart\x27]", "button[type=\x27submit\x27]"],
    price_selectors :=
      ["[class*=\x27price\x27]", ".price__amount", "span[class*=\x27money\x27]"],
    out_of_stock_patterns := ["out of stock", "agotado", "not available"],
    product_title_selectors := ["h1[class*=\x27product-detail\x27]", "h1"] }

/-- `RETAILER_PATTERNS["hm"]` (lines 145–165). -/
def hmPattern : RetailerPattern :=
  { name := "H&M",
    domain_patterns := ["hm.com", "hm2.com"],
    add_to_cart_selectors :=
      ["[data-test=\x27add-to-bag\x27]", "button[id*=\x27add\x27]:has-text(\x27bag\x27)",
       "button:has-text(\x27Add to bag\x27)"],
    price_selectors := ["[class*=\x27price\x27]", "[data-test=\x27price\x27]"],
    out_of_stock_patterns := ["out of stock", "sold out"],
    product_title_selectors := ["h1[class*=\x27title\x27]", "h1"] }

/-- `RETAILER_PATTERNS["nike"]` (lines 167–190). -/
def nikePattern : RetailerPattern :=
  { name := "Nike",
    domain_patterns := ["nike.com"],
    add_to_cart_selectors :=
      [".add-to-cart-btn", "button[data-test=\x27add-to-cart\x27]",
       "button:has-text(\x27Add to Cart\x27)", "[aria-label*=\x27Add to Cart\x27]"],
    price_selectors :=
      ["[data-test=\x27product-price\x27]", "[class*=\x27product-price\x27]", ".product-price"],
    out_of_stock_patterns := ["out of stock", "sold out", "notify me"],
    product_title_selectors :=
      ["h1[data-test=\x27product-title\x27]", "h1[id=\x27pdp_product_title\x27]"] }

/-- `RETAILER_PATTERNS["adidas"]` (lines 192–210). -/
def adidasPattern : RetailerPattern :=
  { name := "Adidas",
    domain_patterns := ["adidas.com"],
    add_to_cart_selectors :=
      ["[data-auto-id=\x27add-to-bag\x27]", "button:has-text(\x27Add to Bag\x27)"],
    price_selectors := ["[class*=\x27gl-price\x27]", "[data-auto-id=\x27product-price\x27]"],
    out_of_stock_patterns := ["out of stock", "sold out"],
    product_title_selectors := ["h1[data-auto-id=\x27product-title\x27]"] }

/-- `RETAILER_PATTERNS["gap"]` (lines 212–230). -/
def gapPattern : RetailerPattern :=
  { name := "Gap",
    domain_patterns := ["gap.com", "oldnavy.com", "bananarepublic.com"],
    add_to_cart_selectors :=
      ["[data-test-id=\x27add-to-bag-button\x27]", "button:has-text(\x27Add to Bag\x27)"],
    price_selectors := ["[class*=\x27product__price\x27]", "[data-test-id=\x27product-price\x27]"],
    out_of_stock_patterns := ["out of stock", "sold out"],
    product_title_selectors := ["h1[data-test-id=\x27product-title\x27]"] }

/-- `RETAILER_PATTERNS["forever21"]` (lines 232–250). -/
def forever21Pattern : RetailerPattern :=
  { name := "Forever 21",
    domain_patterns := ["forever21.com"],
    add_to_cart_selectors :=
      ["[data-option=\x27add-to-cart\x27]", "button:has-text(\x27Add to Cart\x27)"],
    price_selectors := ["[class*=\x27product-price\x27]", ".price"],
    out_of_stock_patterns := ["out of stock", "sold out"],
    product_title_selectors := ["h1[class*=\x27product-title\x27]"] }

/-- `RETAILER_PATTERNS["uniqlo"]` (lines 252–269). -/
def uniqloPattern : RetailerPattern :=
  { name := "Uniqlo",
    domain_patterns := ["uniqlo.com"],
    add_to_cart_selectors := ["[id*=\x27addToCart\x27]", "button:has-text(\x27Add to Cart\x27)"],
    price_selectors := ["[class*=\x27product-price\x27]"],
    out_of_stock_patterns := ["out of stock", "sold out"],
    product_title_selectors := ["h1[class*=\x27product-title\x27]"] }

/-- `RETAILER_PATTERNS["target"]` (lines 271–291). -/
def targetPattern : RetailerPattern :=
  { name := "Target",
    domain_patterns := ["target.com"],
    add_to_cart_selectors :=
      ["[data-test=\x27orderPickupButton\x27]", "[data-test=\x27shippingButton\x27]",
       "button:has-text(\x27Add to cart\x27)"],
    price_selectors := ["[data-test=\x27product-price\x27]", "span[class*=\x27price\x27]"],
    out_of_stock_patterns := ["out of stock", "sold out", "not sold online"],
    product_title_selectors := ["h1[data-test=\x27product-title\x27]"] }

/-- `RETAILER_PATTERNS["walmart"]` (lines 293–311). -/
def walmartPattern : RetailerPattern :=
  { name := "Walmart",
    domain_patterns := ["walmart.com"],
    add_to_cart_selectors :=
      ["[data-automation-id=\x27add-to-cart\x27]", "button:has-text(\x27Add to cart\x27)"],
    price_selectors := ["[itemprop=\x27price\x27]", "[class*=\x27price-characteristic\x27]"],
    out_of_stock_patterns := ["out of stock", "sold out"],
    product_title_selectors := ["h1[itemprop=\x27name\x27]"] }

/-- `RETAILER_PATTERNS["amazon"]` (lines 313–336). -/
def amazonPattern : RetailerPattern :=
  { name := "Amazon",
    domain_patterns := ["amazon.com", "amazon.co.uk", "amazon.ca"],
    add_to_cart_selectors :=
      ["#add-to-cart-button", "[name=\x27submit.add-to-cart\x27]",
       "input[id=\x27add-to-cart-button\x27]"],
    price_selectors :=
      [".a-price-whole", "#priceblock_ourprice", "#priceblock_dealprice",
       "[class*=\x27a-price\x27]"],
    out_of_stock_patterns :=
      ["currently unavailable", "out of stock", "temporarily out of stock"],
    product_title_selectors := ["#productTitle", "h1[id=\x27title\x27]"] }

/-- The `RETAILER_PATTERNS` dict (lines 36–337), in insertion order. -/
def RETAILER_PATTERNS : List (String × RetailerPattern) :=
  [("nordstrom", nordstromPattern), ("macys", macysPattern), ("asos", asosPattern),
   ("zara", zaraPattern), ("hm", hmPattern), ("nike", nikePattern),
   ("adidas", adidasPattern), ("gap", gapPattern), ("forever21", forever21Pattern),
   ("uniqlo", uniqloPattern), ("target", targetPattern), ("walmart", walmartPattern),
   ("amazon", amazonPattern)]

/-- `UNIVERSAL_PATTERNS` (lines 341–421): the fallback pattern set, with the
multilingual out-of-stock phrases. -/
def UNIVERSAL_PATTERNS : RetailerPattern :=
  { name := "Universal",
    domain_patterns := ["*"],
    add_to_cart_selectors :=
      ["button:has-text(\x27Add to Cart\x27)", "button:has-text(\x27Add to Bag\x27)",
       "button:has-text(\x27Add to Basket\x27)", "button:has-text(\x27Buy Now\x27)",
       "button:has-text(\x27Purchase\x27)",
       "[class*=\x27add-to-cart\x27]", "[class*=\x27add-to-bag\x27]",
       "[class*=\x27addtocart\x27]", "[class*=\x27buy-button\x27]",
       "[class*=\x27purchase-button\x27]",
       "[id*=\x27add-to-cart\x27]", "[id*=\x27addToCart\x27]", "[id*=\x27buy-now\x27]",
       "[data-test*=\x27add\x27]", "[data-testid*=\x27add\x27]", "[data-qa*=\x27add\x27]",
       "[aria-label*=\x27Add to Cart\x27]", "[aria-label*=\x27Add to Bag\x27]",
       "button[type=\x27submit\x27]:has-text(\x27cart\x27)",
       "button[type=\x27submit\x27]:has-text(\x27bag\x27)"],
    price_selectors :=
      ["[class*=\x27price\x27]", "[class*=\x27product-price\x27]",
       "[class*=\x27current-price\x27]", "[class*=\x27sale-price\x27]",
       "[id*=\x27price\x27]",
       "[data-test*=\x27price\x27]", "[data-testid*=\x27price\x27]", "[data-price]",
       "[itemprop=\x27price\x27]", "[itemtype*=\x27Offer\x27] [itemprop=\x27price\x27]",
       "span:has-text(\x27$\x27)", "div:has-text(\x27$\x27)", ".money", ".amount"],
    out_of_stock_patterns :=
      ["out of stock", "sold out", "unavailable", "not available",
       "currently unavailable", "temporarily unavailable", "notify me",
       "notify when available", "join waitlist",
       "agotado", "no disponible",
       "épuisé", "non disponible",
       "ausverkauft", "nicht verfügbar"],
    product_title_selectors :=
      ["h1[class*=\x27product\x27]", "h1[class*=\x27title\x27]",
       "h1[data-test*=\x27title\x27]", "h1[itemprop=\x27name\x27]", "h1"] }

/-- `detect_retailer` (lines 424–443): first table entry one of whose domain
patterns occurs in the lowercased URL, else the universal fallback. -/
def detect_retailer (url : String) : RetailerPattern :=
  let url_lower := lowerStr url
  match RETAILER_PATTERNS.find?
      (fun e => e.2.domain_patterns.any (fun dp => containsSub dp url_lower)) with
  | some e => e.2
  | none => UNIVERSAL_PATTERNS

/-- `is_out_of_stock_text` (lines 460–472): any pattern, lowercased, occurs
in the lowercased text. -/
def is_out_of_stock_text (text : String) (patterns : List String) : Bool :=
  patterns.any (fun p => containsSub (lowerStr p) (lowerStr text))

/-- `getattr(pattern, f"\x7bselector_type\x7d_selectors", [])` (line 488): the
dataclass fields whose names end in `_selectors` are `add_to_cart`, `price`,
`product_title`, `size` and `color`; every other selector type — including
`"out_of_stock"`, whose field is named `out_of_stock_patterns` — falls to
the default `[]`.  (`size`/`color` attributes exist but hold `Optional`
values and are never requested through `get_all_selectors` anywhere in the
repository, so they are left to the default branch here.) -/
def selectors_attr (p : RetailerPattern) (selector_type : String) : List String :=
  if selector_type = "add_to_cart" then p.add_to_cart_selectors
  else if selector_type = "price" then p.price_selectors
  else if selector_type = "product_title" then p.product_title_selectors
  else []

/-- `get_all_selectors` (lines 475–497): retailer-specific selectors followed
by the universal ones that are not already present. -/
def get_all_selectors (pattern : RetailerPattern) (selector_type : String) : List String :=
  let retailer_selectors := selectors_attr pattern selector_type
  let universal_selectors := selectors_attr UNIVERSAL_PATTERNS selector_type
  universal_selectors.foldl
    (fun combined s => if combined.contains s then combined else combined ++ [s])
    retailer_selectors

/-- Check 2 of `LinkVerificationAgent._perform_page_checks`
(link_verification_agent.py lines 248–255): `results["is_in_stock"]` starts
true and is cleared when any pattern from
`get_all_selectors(retailer_pattern, "out_of_stock")` matches the page
text. -/
def page_check_is_in_stock (retailer_pattern : RetailerPattern) (page_text : String) : Bool :=
  let oos := get_all_selectors retailer_pattern "out_of_stock"
  !(oos.any (fun p => is_out_of_stock_text page_text [p]))

/-! ## Aggregator client: `integrations/openserp_client.py`

`OpenSERPClient.__init__` (lines 56–76) creates
`asyncio.Semaphore(max_concurrent_requests)` with default `1` and
`request_delay = 2.0`.  `search_products` (lines 78–189) loops
`for attempt in range(max_retries)`; inside the semaphore it enforces the
minimum inter-request delay, then GETs; timeouts and connection errors
retry with `await asyncio.sleep(2 ** attempt)` unless the attempt was the
last, HTTP status errors and unexpected errors return `[]` immediately.

The retry loop is embedded as a fuel recursion over an environment that
yields each attempt's outcome; the semaphore as a counter transition
system; the delay enforcement as the function computing the time at which
the request is actually issued. -/

/-- `max_concurrent_requests` default (openserp_client.py line 59). -/
def openserp_max_concurrent_default : Nat := 1

/-- `request_delay` default in seconds (line 60). -/
def openserp_request_delay_default : ℚ := 2

/-- One raw result item from `/mega/search` as read at lines 137–152
(`dict.get` defaults included).  Non-dict items are skipped by the source
and are not represented. -/
structure RawItem where
  ad : Bool := false
  title : String := ""
  url : String := ""
  description : String := ""
  engine : String := "unknown"
  rank : Int := 0
deriving DecidableEq, Repr

/-- `ProductCandidate` (openserp_client.py lines 24–41). -/
structure OpenSERPCandidate where
  title : String
  url : String
  description : String
  engine : String
  rank : Int
deriving DecidableEq, Repr

/-- Conversion loop at lines 136–160: skip ads and items with a falsy title
or URL. -/
def parse_items (items : List RawItem) : List OpenSERPCandidate :=
  items.filterMap (fun it =>
    if it.ad then none
    else if it.title == "" || it.url == "" then none
    else some ⟨it.title, it.url, it.description, it.engine, it.rank⟩)

/-- What one attempt of the request can produce: a parsed response, a
timeout (`httpx.TimeoutException`), a connection-level error
(`RemoteProtocolError` / `ConnectError` / `ReadError`), an HTTP status
error (`raise_for_status`), or any other exception. -/
inductive AttemptOutcome
  | success (items : List RawItem)
  | timeout
  | connError
  | httpStatus (code : Nat)
  | otherError
deriving DecidableEq, Repr

/-- Outcomes that the source retries (lines 165–171 and 177–183). -/
def isTransient : AttemptOutcome → Bool
  | .timeout => true
  | .connError => true
  | _ => false

/-- Observable result of `search_products`: the returned candidates, the
number of attempts actually made, and the backoff sleeps performed
(in seconds, `2 ** attempt`). -/
structure SearchRun where
  result : List OpenSERPCandidate
  attempts : Nat
  sleeps : List Nat
deriving DecidableEq, Repr

/-- The retry loop of `search_products` (lines 104–189), with the attempt
counter made explicit.  `fuel` is the number of loop iterations left
(`max_retries - attempt` at the call below); falling out of the loop
returns `[]` (line 189).  On a transient failure at the last attempt
(`attempt == max_retries - 1`) the function returns `[]` without sleeping;
otherwise it sleeps `2 ** attempt` seconds and retries.  HTTP status errors
(line 173) and unexpected errors (line 185) return `[]` with no retry. -/
def search_attempts (env : Nat → AttemptOutcome) (max_retries : Nat) :
    Nat → Nat → SearchRun
  | 0, attempt => { result := [], attempts := attempt, sleeps := [] }
  | fuel + 1, attempt =>
      match env attempt with
      | .success items =>
          { result := parse_items items, attempts := attempt + 1, sleeps := [] }
      | .timeout =>
          if attempt == max_retries - 1 then
            { result := [], attempts := attempt + 1, sleeps := [] }
          else
            let r := search_attempts env max_retries fuel (attempt + 1)
            { r with sleeps := 2 ^ attempt :: r.sleeps }
      | .connError =>
          if attempt == max_retries - 1 then
            { result := [], attempts := attempt + 1, sleeps := [] }
          else
            let r := search_attempts env max_retries fuel (attempt + 1)
            { r with sleeps := 2 ^ attempt :: r.sleeps }
      | .httpStatus _ => { result := [], attempts := attempt + 1, sleeps := [] }
      | .otherError => { result := [], attempts := attempt + 1, sleeps := [] }

/-- `OpenSERPClient.search_products` (lines 78–189), as a function of the
environment's per-attempt outcomes (default `max_retries = 3`). -/
def search_products (env : Nat → AttemptOutcome) (max_retries : Nat) : SearchRun :=
  search_attempts env max_retries max_retries 0

/-- Reachable occupancy of an `asyncio.Semaphore(cap)`: callers enter only
when fewer than `cap` are inside (otherwise they wait) and leave when done.
The request-issuing section of `search_products` (lines 107–163) runs
entirely inside `async with self._semaphore`. -/
inductive SemReach (cap : Nat) : Nat → Prop
  | init : SemReach cap 0
  | enter {n : Nat} : SemReach cap n → n < cap → SemReach cap (n + 1)
  | leave {n : Nat} : SemReach cap (n + 1) → SemReach cap n

/-- The inter-request delay enforcement (lines 109–113): reading the clock
at `now` with the previous issue time `last`, the code sleeps
`request_delay - (now - last)` when that gap is short, so the request is
issued (and `_last_request_time` recorded) at this time. -/
def rate_limited_issue_time (last now delay : ℚ) : ℚ :=
  if now - last < delay then last + delay else now

/-! ## Aggregator supervisor: `integrations/openserp_manager.py`

`OpenSERPManager._monitor_health` (lines 205–251) loops while
`self.is_running`: on a failed health check it attempts a restart if
`restart_count < max_restart_attempts` (incrementing the counter), and
otherwise sets `is_running = False` and breaks.  `_start_server`
(lines 90–137) resets `restart_count` to `0` only on its success path
(line 127), which is reached only after `_wait_for_ready` confirmed
initialized engines.  A successful health check resets only
`consecutive_failures`. -/

/-- Supervisor state carried across monitor-loop iterations. -/
structure MgrState where
  is_running : Bool
  restart_count : Nat
  consecutive_failures : Nat
deriving DecidableEq, Repr

/-- Environment of one monitor iteration: whether the health check passed,
and — if a restart is attempted — whether `_start_server` succeeds
(confirming healthy engines). -/
structure MonEvent where
  healthy : Bool
  restart_succeeds : Bool
deriving DecidableEq, Repr

/-- What one monitor iteration did. -/
inductive MonAction
  | noAction
  | restartAttempt (success : Bool)
  | gaveUp
deriving DecidableEq, Repr

/-- One iteration of `_monitor_health`'s `while` body (lines 213–251),
assuming `is_running` held at the loop head.  Mirrors: increment
`consecutive_failures` on a failed check; if `restart_count <
max_restart_attempts`, increment it and attempt `_start_server`, which on
success resets `restart_count` (line 127) and `consecutive_failures`
(line 240); otherwise give up (`is_running = False`, line 245).  A healthy
check resets `consecutive_failures` (line 251). -/
def monitor_step (max_restart_attempts : Nat) (s : MgrState) (e : MonEvent) :
    MgrState × MonAction :=
  if e.healthy then
    ({ s with consecutive_failures := 0 }, .noAction)
  else
    let cf := s.consecutive_failures + 1
    if s.restart_count < max_restart_attempts then
      if e.restart_succeeds then
        ({ is_running := true, restart_count := 0, consecutive_failures := 0 },
         .restartAttempt true)
      else
        ({ s with restart_count := s.restart_count + 1, consecutive_failures := cf },
         .restartAttempt false)
    else
      ({ s with is_running := false, consecutive_failures := cf }, .gaveUp)

/-- The monitor loop over a finite schedule of environment events: stops
consuming events once `is_running` is false (the `while` condition /
`break`). -/
def run_monitor (max_restart_attempts : Nat) (s : MgrState) :
    List MonEvent → MgrState × List MonAction
  | [] => (s, [])
  | e :: rest =>
      if s.is_running then
        let (s', a) := monitor_step max_restart_attempts s e
        let (s'', as_) := run_monitor max_restart_attempts s' rest
        (s'', a :: as_)
      else
        (s, [])

/-- Number of restart attempts recorded in a monitor trace. -/
def count_restarts (actions : List MonAction) : Nat :=
  actions.countP (fun a => match a with | .restartAttempt _ => true | _ => false)

/-! ## Concrete inputs used by the counterexamples and witnesses -/

/-- A budget with `soft_cap = 120`, `hard_cap = 200` (the spec's scenario). -/
def c1Budget : Budget := { soft_cap := some 120, hard_cap := some 200 }

/-- An out-of-stock product without a price, as any source may emit it. -/
def c1OutOfStockProduct : Product :=
  { id := "p1", title := "black leather ankle boots", price := none,
    url := "http://example.com/boots", in_stock := false,
    availability_status := "out_of_stock", source := "asos",
    relevance_score := some 1 }

/-- First-seen product of the duplicate pair: lower relevance. -/
def c2First : Product :=
  { id := "a", title := "chelsea boot", url := "http://shop.com/item",
    source := "asos", relevance_score := some 1 }

/-- Second product with the same URL and the higher relevance. -/
def c2Second : Product :=
  { id := "b", title := "chelsea boot", url := "http://shop.com/item",
    source := "openserp", relevance_score := some 2 }

/-- A highly relevant product priced above the hard cap of `c1Budget`. -/
def c8PriceyProduct : Product :=
  { id := "c", title := "designer boot", price := some 250,
    url := "http://shop.com/pricey", source := "openserp",
    relevance_score := some 1 }

/-- The pool state of a 1-browser, 1-context pool after its only context
has been acquired (the successor of `initPool 1` under the acquire step):
the next acquire must block. -/
def poolBlockedState : PoolState :=
  { avail := Function.update (initPool 1).avail ((initPool 1).rr % 1)
      ((initPool 1).avail ((initPool 1).rr % 1) - 1),
    leased := Function.update (initPool 1).leased ((initPool 1).rr % 1)
      ((initPool 1).leased ((initPool 1).rr % 1) + 1),
    rr := ((initPool 1).rr + 1) % 1 }

/-- A 200 product page whose JSON-LD offer has a price but no availability
field at all. -/
def c5NoAvailabilityPage : PageData :=
  { status := 200, jsonLd := some { offers := some [{ price := some 50 }] } }

/-- A 200 product page whose JSON-LD offer says `"unavailable"` — a term the
source itself lists in `AVAILABILITY_OUT_OF_STOCK`. -/
def c5UnavailablePage : PageData :=
  { status := 200,
    jsonLd := some { offers := some [{ price := some 50, availability := some "unavailable" }] } }

/-! ## Claim C2: deduplication -/

/-- C2 (code bug): on two products with the same URL and relevance scores
`1 < 2` in first-seen order, `_deduplicate_products` returns the
first-seen, lower-relevance product — the `seen_urls` dict is updated with
the higher-relevance duplicate, but the returned `unique` list never is.
This contradicts both the claim and the function's own docstring
("Exact URL match → keep highest relevance"). -/
theorem C2_dedup_keeps_first_not_higher :
    deduplicate_products [c2First, c2Second] = [c2First] ∧
    lowerStr c2Second.url = lowerStr c2First.url ∧
    relevanceOrZero c2First < relevanceOrZero c2Second := by
  refine ⟨?_, by decide, by norm_num [relevanceOrZero, c2First, c2Second]⟩
  decide

/-! ## Claim C6: selector combination -/

/-- Helper: the attribute lookup behind `get_all_selectors` yields the
default `[]` for the selector type `"out_of_stock"`, for every pattern —
the dataclass field is named `out_of_stock_patterns`, not
`out_of_stock_selectors`. -/
theorem selectors_attr_out_of_stock (p : RetailerPattern) :
    selectors_attr p "out_of_stock" = [] := by
  simp [selectors_attr]

/-- C6 (code bug): for the `"out_of_stock"` pattern type,
`get_all_selectors` returns the empty list for every retailer pattern
(universal fallback included), because the field-name template
`f"\x7bselector_type\x7d_selectors"` misses the `out_of_stock_patterns`
field; consequently the browser verifier's out-of-stock check
(`_perform_page_checks`, Check 2) iterates over no patterns and never
flags any page text as out of stock — even text that is literally
"sold out".  The non-empty pattern tables exist but are unreachable
through this call. -/
theorem C6_out_of_stock_selectors_empty :
    get_all_selectors UNIVERSAL_PATTERNS "out_of_stock" = [] ∧
    get_all_selectors nordstromPattern "out_of_stock" = [] ∧
    (∀ p : RetailerPattern, get_all_selectors p "out_of_stock" = []) ∧
    UNIVERSAL_PATTERNS.out_of_stock_patterns ≠ [] ∧
    nordstromPattern.out_of_stock_patterns ≠ [] ∧
    (∀ (p : RetailerPattern) (page_text : String),
      page_check_is_in_stock p page_text = true) ∧
    page_check_is_in_stock UNIVERSAL_PATTERNS "sold out" = true := by
  have hattr : ∀ p : RetailerPattern, get_all_selectors p "out_of_stock" = [] := by
    intro p
    simp [get_all_selectors, selectors_attr_out_of_stock]
  have hcheck : ∀ (p : RetailerPattern) (t : String),
      page_check_is_in_stock p t = true := by
    intro p t
    simp [page_check_is_in_stock, hattr]
  exact ⟨hattr _, hattr _, hattr, by decide, by decide, hcheck, hcheck _ _⟩

/-! ## Claim C7: price-fit shape -/

/-- C7 (counterexample): with `soft_cap = 100`, `hard_cap = 200`, a price of
`50` (below the soft cap) scores `0.9 < 1.0` while `100` scores `1.0` — the
score below the soft cap is not the full score; and a price of exactly
`200` (the hard cap) scores `0.2`, not `0` — the decay does not reach zero
at the hard cap.  Both implementations agree on these values. -/
theorem C7_price_fit_counterexample :
    score_price_fit_engine 50 100 200 = 9/10 ∧
    score_price_fit_engine 100 100 200 = 1 ∧
    score_price_fit_engine 200 100 200 = 2/10 ∧
    (2/10 : ℚ) ≠ 0 ∧ (9/10 : ℚ) < 1 ∧
    score_price_fit (some 50) 100 200 = 9/10 ∧
    score_price_fit (some 200) 100 200 = 2/10 := by
  refine ⟨?_, ?_, ?_, by norm_num, by norm_num, ?_, ?_⟩ <;>
    norm_num [score_price_fit_engine, score_price_fit]

/-- C7 (amended): for `0 < soft_cap < hard_cap` and a nonnegative price, the
price-fit score is `0.8 + 0.2·(price/soft_cap)` at or below the soft cap
(rising to the maximum `1.0` exactly at the soft cap), decays linearly from
`0.8` to `0.2` between the caps (value `0.8 − 0.6·(price−soft)/(hard−soft)`,
equal to `0.2` at the hard cap), and drops to `0` strictly above the hard
cap; the orchestrator's scorer agrees with the ranking engine's on every
priced product in this range. -/
theorem C7_price_fit_amended (price soft_cap hard_cap : ℚ)
    (hs : 0 < soft_cap) (hsh : soft_cap < hard_cap) :
    (price ≤ soft_cap →
      score_price_fit_engine price soft_cap hard_cap
        = 8/10 + (price / soft_cap) * (2/10)) ∧
    (soft_cap < price → price ≤ hard_cap →
      score_price_fit_engine price soft_cap hard_cap
        = 8/10 - ((price - soft_cap) / (hard_cap - soft_cap)) * (6/10)) ∧
    (hard_cap < price → score_price_fit_engine price soft_cap hard_cap = 0) ∧
    score_price_fit_engine soft_cap soft_cap hard_cap = 1 ∧
    score_price_fit_engine hard_cap soft_cap hard_cap = 2/10 ∧
    score_price_fit (some price) soft_cap hard_cap
      = score_price_fit_engine price soft_cap hard_cap := by
  have hhard0 : 0 < hard_cap := lt_trans hs hsh
  have hgap : 0 < hard_cap - soft_cap := by linarith
  constructor
  · intro hle
    have hq : price / soft_cap ≤ 1 := by
      rw [div_le_one hs]; exact hle
    have hnot : ¬ price > hard_cap := by push_neg; linarith
    have hval : 8/10 + (price / soft_cap) * (2/10) ≤ 1 := by nlinarith
    simp [score_price_fit_engine, hnot, hle, min_eq_right hval]
  constructor
  · intro hgt hle
    have hnot : ¬ price > hard_cap := by push_neg; exact hle
    have hnot2 : ¬ price ≤ soft_cap := by push_neg; exact hgt
    have hq : (price - soft_cap) / (hard_cap - soft_cap) ≤ 1 := by
      rw [div_le_one hgap]; linarith
    have hval : 2/10 ≤ 8/10 - ((price - soft_cap) / (hard_cap - soft_cap)) * (6/10) := by
      nlinarith
    simp [score_price_fit_engine, hnot, hnot2, max_eq_right hval]
  constructor
  · intro hgt
    simp [score_price_fit_engine, hgt]
  refine ⟨?_, ?_, ?_⟩
  · have hnot : ¬ soft_cap > hard_cap := by push_neg; linarith
    have hself : soft_cap / soft_cap = 1 := div_self (ne_of_gt hs)
    simp [score_price_fit_engine, hnot, le_refl, hself]
    norm_num
  · have hnot : ¬ hard_cap > hard_cap := lt_irrefl _
    have hnot2 : ¬ hard_cap ≤ soft_cap := by push_neg; exact hsh
    have hself : (hard_cap - soft_cap) / (hard_cap - soft_cap) = 1 :=
      div_self (ne_of_gt hgap)
    simp [score_price_fit_engine, hnot, hnot2, hself]
    norm_num
  · by_cases h1 : price > hard_cap
    · simp [score_price_fit, score_price_fit_engine, h1]
    · by_cases h2 : price ≤ soft_cap
      · have hq : price / soft_cap ≤ 1 := by
          rw [div_le_one hs]; exact h2
        have hval : 8/10 + (price / soft_cap) * (2/10) ≤ 1 := by nlinarith
        simp [score_price_fit, score_price_fit_engine, h1, h2, min_eq_right hval]
      · push_neg at h1 h2
        have hq : (price - soft_cap) / (hard_cap - soft_cap) ≤ 1 := by
          rw [div_le_one hgap]; linarith
        have hval : 2/10 ≤ 8/10 - ((price - soft_cap) / (hard_cap - soft_cap)) * (6/10) := by
          nlinarith
        have h2' : ¬ price ≤ soft_cap := by push_neg; exact h2
        have h1' : ¬ price > hard_cap := by push_neg; exact h1
        simp [score_price_fit, score_price_fit_engine, h1', h2', max_eq_right hval]

/-- C7 amended witness: the amended shape at `price = 50`, `soft_cap = 100`,
`hard_cap = 200`. -/
theorem C7_price_fit_amended_witness :
    (((50:ℚ) ≤ 100 → score_price_fit_engine 50 100 200 = 8/10 + (50 / 100) * (2/10)) ∧
     ((100:ℚ) < 50 → (50:ℚ) ≤ 200 →
       score_price_fit_engine 50 100 200
         = 8/10 - ((50 - 100) / (200 - 100)) * (6/10)) ∧
     ((200:ℚ) < 50 → score_price_fit_engine 50 100 200 = 0) ∧
     score_price_fit_engine 100 100 200 = 1 ∧
     score_price_fit_engine 200 100 200 = 2/10 ∧
     score_price_fit (some 50) 100 200 = score_price_fit_engine 50 100 200) :=
  C7_price_fit_amended 50 100 200 (by norm_num) (by norm_num)

/-! ## Claim C8: budget scoring boundary -/

/-- C8: for every budget with `0 < soft_cap < hard_cap`, a candidate priced
exactly at the soft cap scores at least one priced at `soft_cap + 1`; and
`_apply_filters` removes every product priced strictly above
`budget.get("hard_cap", 300)`, regardless of any other field (relevance
included). -/
theorem C8_budget_boundary :
    (∀ soft_cap hard_cap : ℚ, 0 < soft_cap → soft_cap < hard_cap →
      score_price_fit (some (soft_cap + 1)) soft_cap hard_cap
        ≤ score_price_fit (some soft_cap) soft_cap hard_cap) ∧
    (∀ (products : List Product) (budget : Budget) (allow : Option (List String))
       (p : Product) (pr : ℚ), p.price = some pr → budget.hardCap < pr →
       p ∉ apply_filters products budget.hardCap allow) := by
  constructor
  · intro soft_cap hard_cap hs hsh
    have hgap : 0 < hard_cap - soft_cap := by linarith
    have hsoft : score_price_fit (some soft_cap) soft_cap hard_cap = 1 := by
      have hnot : ¬ soft_cap > hard_cap := by push_neg; linarith
      have hself : soft_cap / soft_cap = 1 := div_self (ne_of_gt hs)
      simp [score_price_fit, hnot, le_refl, hself]
      norm_num
    rw [hsoft]
    by_cases hc : soft_cap + 1 > hard_cap
    · simp [score_price_fit, hc]
    · have hc2 : ¬ soft_cap + 1 ≤ soft_cap := by push_neg; linarith
      have hpos : 0 < (soft_cap + 1 - soft_cap) / (hard_cap - soft_cap) := by
        apply div_pos _ hgap
        norm_num
      simp only [score_price_fit, if_neg hc, if_neg hc2]
      nlinarith
  · intro products budget allow p pr hpr hgt hmem
    rw [apply_filters, List.mem_filter] at hmem
    have := hmem.2
    rw [Bool.and_eq_true] at this
    have hpo := this.1
    rw [priceOk, hpr] at hpo
    simp at hpo
    exact absurd hgt (not_lt.mpr hpo)

/-- C8 witness: the boundary at the scenario budget `soft_cap = 120`,
`hard_cap = 200`, and the `250`-priced product removed by the filter. -/
theorem C8_budget_boundary_witness :
    score_price_fit (some ((120:ℚ) + 1)) 120 200 ≤ score_price_fit (some 120) 120 200 ∧
    c8PriceyProduct ∉ apply_filters [c8PriceyProduct] c1Budget.hardCap none :=
  ⟨C8_budget_boundary.1 120 200 (by norm_num) (by norm_num),
   C8_budget_boundary.2 [c8PriceyProduct] c1Budget none c8PriceyProduct 250 rfl
     (by norm_num [Budget.hardCap, c1Budget])⟩

/-! ## Claim C5: HTTP pre-filter keep/reject -/

/-- Helper: one iteration body sets `in_stock` only from an in-stock term
in this offer's availability (otherwise it can only keep or clear it). -/
theorem parse_offer_step_in_stock (o : Offer) (d : ProductDetails) :
    (parse_offer_step o d).in_stock = true →
    d.in_stock = true ∨ ∃ a, o.availability = some a ∧
      AVAILABILITY_IN_STOCK.any (fun t => containsSub t (lowerStr a)) = true := by
  rcases o with ⟨op, oc, oa⟩
  cases op <;> cases oc <;> cases oa <;>
    simp only [parse_offer_step] <;>
    first
    | (intro h; exact Or.inl h)
    | (rename_i a
       by_cases hin : AVAILABILITY_IN_STOCK.any (fun t => containsSub t (lowerStr a)) = true
       · intro _; exact Or.inr ⟨a, rfl, hin⟩
       · by_cases hout :
           AVAILABILITY_OUT_OF_STOCK.any (fun t => containsSub t (lowerStr a)) = true
         · simp [hin, hout]
         · simp only [hin, hout, if_false, Bool.false_eq_true]
           intro h; exact Or.inl h)

/-- Helper: if the offer scan ends with `in_stock` set, either it was
already set, or some offer's availability contains an in-stock term. -/
theorem parse_offers_in_stock_source (offers : List Offer) (d : ProductDetails) :
    (parse_offers offers d).in_stock = true →
    d.in_stock = true ∨ ∃ o ∈ offers, ∃ a, o.availability = some a ∧
      AVAILABILITY_IN_STOCK.any (fun t => containsSub t (lowerStr a)) = true := by
  induction offers generalizing d with
  | nil => intro h; exact Or.inl h
  | cons o rest ih =>
      intro h
      have step : (parse_offer_step o d).in_stock = true →
          d.in_stock = true ∨ ∃ o' ∈ o :: rest, ∃ a, o'.availability = some a ∧
            AVAILABILITY_IN_STOCK.any (fun t => containsSub t (lowerStr a)) = true := by
        intro hs
        rcases parse_offer_step_in_stock o d hs with hd | ⟨a, ha, hin⟩
        · exact Or.inl hd
        · exact Or.inr ⟨o, List.mem_cons_self o rest, a, ha, hin⟩
      rw [parse_offers] at h
      cases hp : (parse_offer_step o d).price with
      | some p => rw [hp] at h; exact step h
      | none =>
          rw [hp] at h
          rcases ih _ h with hs | ⟨o', ho', a', ha', hin'⟩
          · exact step hs
          · exact Or.inr ⟨o', (List.mem_cons).mpr (Or.inr ho'), a', ha', hin'⟩

/-- Helper: the offer-iteration body never touches `passed_prefilter`. -/
theorem parse_offer_step_passed (o : Offer) (d : ProductDetails) :
    (parse_offer_step o d).passed_prefilter = d.passed_prefilter := by
  rcases o with ⟨op, oc, oa⟩
  cases op <;> cases oc <;> cases oa <;>
    simp only [parse_offer_step] <;>
    first
    | rfl
    | (rename_i a
       by_cases hin : AVAILABILITY_IN_STOCK.any (fun t => containsSub t (lowerStr a)) = true
       · simp [hin]
       · by_cases hout :
           AVAILABILITY_OUT_OF_STOCK.any (fun t => containsSub t (lowerStr a)) = true
         · simp [hin, hout]
         · simp [hin, hout])

/-- Helper: the offers scan never touches `passed_prefilter`. -/
theorem parse_offers_passed (offers : List Offer) (d : ProductDetails) :
    (parse_offers offers d).passed_prefilter = d.passed_prefilter := by
  induction offers generalizing d with
  | nil => rfl
  | cons o rest ih =>
      rw [parse_offers]
      cases hp : (parse_offer_step o d).price with
      | some p => rw [parse_offer_step_passed]
      | none => rw [ih, parse_offer_step_passed]

/-- Helper: `_parse_json_ld` never touches `passed_prefilter`. -/
theorem parse_json_ld_passed (j : JsonLdProduct) (d : ProductDetails) :
    (parse_json_ld j d).passed_prefilter = d.passed_prefilter := by
  rcases j with ⟨jb, joff⟩
  cases joff with
  | none =>
      simp only [parse_json_ld]
      rcases jb with _ | b
      · rfl
      · rcases b with s | nm <;> rfl
  | some offers =>
      simp only [parse_json_ld]
      rw [parse_offers_passed]
      rcases jb with _ | b
      · rfl
      · rcases b with s | nm <;> rfl

/-- Helper: the brand update of `_parse_json_ld` never touches `in_stock`,
so an `in_stock` result must come from the offers scan. -/
theorem parse_json_ld_in_stock_source (j : JsonLdProduct) (d : ProductDetails)
    (hd : d.in_stock = false) :
    (parse_json_ld j d).in_stock = true →
    ∃ offers, j.offers = some offers ∧ ∃ o ∈ offers, ∃ a, o.availability = some a ∧
      AVAILABILITY_IN_STOCK.any (fun t => containsSub t (lowerStr a)) = true := by
  rcases j with ⟨jb, joff⟩
  have hbrand : ∀ d' : ProductDetails,
      (match jb with
        | some (.obj nm) => { d' with brand := nm }
        | some (.str s) => { d' with brand := some s }
        | none => d').in_stock = d'.in_stock := by
    intro d'
    rcases jb with _ | b
    · rfl
    · rcases b with s | nm <;> rfl
  cases joff with
  | none =>
      simp only [parse_json_ld]
      rw [hbrand, hd]
      intro h
      exact absurd h (by simp)
  | some offers =>
      intro h
      simp only [parse_json_ld] at h
      rcases parse_offers_in_stock_source offers _ h with hbad | ⟨o, ho, a, ha, hin⟩
      · rw [hbrand, hd] at hbad
        exact absurd hbad (by simp)
      · exact ⟨offers, rfl, o, ho, a, ha, hin⟩

/-- C5 (counterexample): the keep/reject rule of the claim fails in both
directions.  A 200 page whose JSON-LD offer carries a price but no
availability information at all is rejected with reason
`"Not in stock: None"` (the claim says a 200 page not explicitly out of
stock is kept); and a 200 page whose availability is `"unavailable"` — a
term the source itself lists among its out-of-stock markers — is kept,
because the in-stock terms are tested first and `"available"` is a
substring of `"unavailable"`. -/
theorem C5_prefilter_counterexample :
    (check_single (.ok c5NoAvailabilityPage)).passed_prefilter = false ∧
    (check_single (.ok c5NoAvailabilityPage)).http_status = 200 ∧
    (check_single (.ok c5NoAvailabilityPage)).availability = none ∧
    (check_single (.ok c5NoAvailabilityPage)).rejection_reason
      = some "Not in stock: None" ∧
    (check_single (.ok c5UnavailablePage)).passed_prefilter = true ∧
    "unavailable" ∈ AVAILABILITY_OUT_OF_STOCK := by
  decide

/-- C5 (amended): `_check_single` keeps a candidate exactly when the HTTP
status is 200 and the JSON-LD offers scan marked it explicitly in stock; in
particular every kept candidate has some offer whose availability contains
an in-stock term, non-200 responses, timeouts, and errors are always
rejected, and `filter_batch` keeps exactly the pre-filter survivors that
also pass the optional brand/price filters. -/
theorem C5_prefilter_amended :
    (∀ page : PageData, page.status ≠ 200 →
      (check_single (.ok page)).passed_prefilter = false) ∧
    (∀ page : PageData,
      (check_single (.ok page)).passed_prefilter
        = ((page.status == 200) && availability_in_stock_flag page)) ∧
    (∀ page : PageData, (check_single (.ok page)).passed_prefilter = true →
      ∃ j, page.jsonLd = some j ∧ ∃ offers, j.offers = some offers ∧
        ∃ o ∈ offers, ∃ a, o.availability = some a ∧
          AVAILABILITY_IN_STOCK.any (fun t => containsSub t (lowerStr a)) = true) ∧
    ((check_single .timeout).passed_prefilter = false ∧
      ∀ n, (check_single (.failed n)).passed_prefilter = false) ∧
    (∀ (results : List ProductDetails) (rb : Option String) (mp : Option ℚ)
       (d : ProductDetails),
      d ∈ filter_batch results rb mp ↔
        d ∈ results ∧ keep_after_filters rb mp d = true) := by
  have hflag : ∀ page : PageData,
      (check_single (.ok page)).passed_prefilter
        = ((page.status == 200) && availability_in_stock_flag page) := by
    intro page
    rcases page with ⟨st, jld⟩
    by_cases h : st = 200
    · subst h
      cases jld with
      | none => simp [check_single, availability_in_stock_flag]
      | some j =>
          simp only [check_single, availability_in_stock_flag, ne_eq, not_true_eq_false,
            if_false, beq_self_eq_true, Bool.true_and]
          by_cases hin :
              (parse_json_ld j { http_status := 200, json_ld_found := true }).in_stock = true
          · simp [hin]
          · simp only [Bool.not_eq_true] at hin
            simp [hin, parse_json_ld_passed]
    · have hb : (st == 200) = false := by
        simp [Nat.beq_eq_true_eq, h]
      simp [check_single, h, hb]
  refine ⟨?_, hflag, ?_, ⟨rfl, fun _ => rfl⟩, ?_⟩
  · intro page h
    rw [hflag page]
    have hb : (page.status == 200) = false := by
      simp [Nat.beq_eq_true_eq, h]
    simp [hb]
  · intro page h
    rw [hflag page] at h
    rw [Bool.and_eq_true] at h
    rcases h with ⟨_, hfl⟩
    rcases page with ⟨st, jld⟩
    cases jld with
    | none => exact absurd hfl (by simp [availability_in_stock_flag])
    | some j =>
        simp only [availability_in_stock_flag] at hfl
        rcases parse_json_ld_in_stock_source j _ rfl hfl with ⟨offers, hoff, o, ho, a, ha, hin⟩
        exact ⟨j, rfl, offers, hoff, o, ho, a, ha, hin⟩
  · intro results rb mp d
    simp [filter_batch, List.mem_filter]

/-- C5 amended witness: the amended rule applied to the concrete
`"unavailable"` page and an empty batch. -/
theorem C5_prefilter_amended_witness :
    (check_single (.ok c5UnavailablePage)).passed_prefilter
      = ((c5UnavailablePage.status == 200) && availability_in_stock_flag c5UnavailablePage) ∧
    ((check_single (.ok c5NoAvailabilityPage)).passed_prefilter = true →
      ∃ j, c5NoAvailabilityPage.jsonLd = some j ∧ ∃ offers, j.offers = some offers ∧
        ∃ o ∈ offers, ∃ a, o.availability = some a ∧
          AVAILABILITY_IN_STOCK.any (fun t => containsSub t (lowerStr a)) = true) :=
  ⟨C5_prefilter_amended.2.1 c5UnavailablePage,
   C5_prefilter_amended.2.2.1 c5NoAvailabilityPage⟩

/-! ## Claim C10: supervisor restart bound -/

/-- Helper: a healthy check only clears `consecutive_failures`. -/
theorem monitor_step_healthy (max : Nat) (s : MgrState) (r : Bool) :
    monitor_step max s ⟨true, r⟩ = ({ s with consecutive_failures := 0 }, .noAction) := by
  simp [monitor_step]

/-- Helper: a failed check under the bound attempts a restart; on failure
the counter advances. -/
theorem monitor_step_fail_retry (max : Nat) (s : MgrState)
    (hc : s.restart_count < max) :
    monitor_step max s ⟨false, false⟩
      = ({ s with
            restart_count := s.restart_count + 1,
            consecutive_failures := s.consecutive_failures + 1 },
         MonAction.restartAttempt false) := by
  simp [monitor_step, hc]

/-- Helper: a failed check at the bound gives up and stops the supervisor. -/
theorem monitor_step_give_up (max : Nat) (s : MgrState) (r : Bool)
    (hc : ¬ s.restart_count < max) :
    monitor_step max s ⟨false, r⟩
      = ({ s with
            is_running := false,
            consecutive_failures := s.consecutive_failures + 1 },
         MonAction.gaveUp) := by
  simp [monitor_step, hc]

/-- Helper: one monitor iteration keeps `restart_count ≤ max`. -/
theorem monitor_step_count_le (max : Nat) (s : MgrState) (e : MonEvent)
    (h : s.restart_count ≤ max) :
    (monitor_step max s e).1.restart_count ≤ max := by
  rcases e with ⟨eh, er⟩
  by_cases hc : s.restart_count < max <;>
    cases eh <;> cases er <;> simp [monitor_step, hc] <;> omega

/-- Helper: a monitor run from a stopped supervisor does nothing. -/
theorem run_monitor_stopped (max : Nat) (s : MgrState) (events : List MonEvent)
    (h : s.is_running = false) :
    run_monitor max s events = (s, []) := by
  cases events with
  | nil => rfl
  | cons e rest => simp [run_monitor, h]

/-- C10: the health-monitor loop's restart behavior.
Conjuncts: (1) a stopped supervisor performs no further actions; (2) the
restart counter decreases only through a restart that succeeded, i.e. a
`_start_server` call that confirmed healthy engines; (3) `restart_count`
never exceeds `max_restart_attempts`; (4) while no restart succeeds, the
whole run performs at most `max_restart_attempts − restart_count` restart
attempts — the supervisor never restarts indefinitely; (5) with persistent
failure and enough health-check events, the run ends stopped. -/
theorem C10_monitor_restart_bound :
    (∀ (max : Nat) (s : MgrState) (events : List MonEvent),
      s.is_running = false → run_monitor max s events = (s, [])) ∧
    (∀ (max : Nat) (s : MgrState) (e : MonEvent),
      (monitor_step max s e).1.restart_count < s.restart_count →
      e.healthy = false ∧ e.restart_succeeds = true) ∧
    (∀ (max : Nat) (s : MgrState) (events : List MonEvent),
      s.restart_count ≤ max →
      (run_monitor max s events).1.restart_count ≤ max) ∧
    (∀ (max : Nat) (s : MgrState) (events : List MonEvent),
      (∀ e ∈ events, e.restart_succeeds = false) →
      count_restarts (run_monitor max s events).2 ≤ max - s.restart_count) ∧
    (∀ (max : Nat) (s : MgrState) (events : List MonEvent),
      (∀ e ∈ events, e.healthy = false ∧ e.restart_succeeds = false) →
      s.is_running = true → max - s.restart_count < events.length →
      (run_monitor max s events).1.is_running = false) := by
  refine ⟨run_monitor_stopped, ?_, ?_, ?_, ?_⟩
  · intro max s e h
    rcases e with ⟨eh, er⟩
    by_cases hc : s.restart_count < max
    all_goals cases eh
    all_goals cases er
    all_goals simp [monitor_step, hc] at h
    all_goals simp_all
  · intro max s events
    induction events generalizing s with
    | nil => intro h; exact h
    | cons e rest ih =>
        intro h
        by_cases hr : s.is_running
        · simp only [run_monitor, hr, if_true]
          exact ih _ (monitor_step_count_le max s e h)
        · rw [run_monitor_stopped max s (e :: rest) (by simpa using hr)]
          exact h
  · intro max s events
    induction events generalizing s with
    | nil => intro _; simp [run_monitor, count_restarts]
    | cons e rest ih =>
        intro hfail
        by_cases hr : s.is_running
        · have hef : e.restart_succeeds = false := hfail e (List.mem_cons_self e rest)
          have hrest : ∀ e' ∈ rest, e'.restart_succeeds = false := fun e' he' =>
            hfail e' ((List.mem_cons).mpr (Or.inr he'))
          simp only [run_monitor, hr, if_true]
          rcases e with ⟨eh, er⟩
          simp only at hef
          subst hef
          cases eh
          · by_cases hc : s.restart_count < max
            · rw [monitor_step_fail_retry max s hc]
              have hih := ih { s with
                restart_count := s.restart_count + 1,
                consecutive_failures := s.consecutive_failures + 1 } hrest
              simp [count_restarts, List.countP_cons] at hih ⊢
              omega
            · rw [monitor_step_give_up max s false hc]
              rw [run_monitor_stopped max _ rest rfl]
              simp [count_restarts]
          · rw [monitor_step_healthy max s false]
            have hih := ih { s with consecutive_failures := 0 } hrest
            simp [count_restarts, List.countP_cons] at hih ⊢
            omega
        · rw [run_monitor_stopped max s (e :: rest) (by simpa using hr)]
          simp [count_restarts]
  · intro max s events
    induction events generalizing s with
    | nil => intro _ _ h; exact absurd h (by simp)
    | cons e rest ih =>
        intro hfail hr hlen
        have he := hfail e (List.mem_cons_self e rest)
        have hrest : ∀ e' ∈ rest, e'.healthy = false ∧ e'.restart_succeeds = false :=
          fun e' he' => hfail e' ((List.mem_cons).mpr (Or.inr he'))
        rcases e with ⟨eh, er⟩
        rcases he with ⟨heh, her⟩
        simp only at heh her
        subst heh; subst her
        simp only [run_monitor, hr, if_true]
        by_cases hc : s.restart_count < max
        · rw [monitor_step_fail_retry max s hc]
          refine ih _ hrest ?_ ?_
          · exact hr
          · simp only [List.length_cons] at hlen
            simp only
            omega
        · rw [monitor_step_give_up max s false hc]
          rw [run_monitor_stopped max _ rest rfl]

/-- C10 witness: from the freshly started state with
`max_restart_attempts = 3`, four consecutive failing health checks with
failing restarts produce at most three restart attempts and leave the
supervisor stopped. -/
theorem C10_monitor_restart_bound_witness :
    count_restarts
      (run_monitor 3 ⟨true, 0, 0⟩
        (List.replicate 4 ⟨false, false⟩)).2 ≤ 3 - 0 ∧
    (run_monitor 3 ⟨true, 0, 0⟩
      (List.replicate 4 ⟨false, false⟩)).1.is_running = false :=
  ⟨C10_monitor_restart_bound.2.2.2.1 3 ⟨true, 0, 0⟩ (List.replicate 4 ⟨false, false⟩)
     (by intro e he; simp [List.eq_of_mem_replicate he]),
   C10_monitor_restart_bound.2.2.2.2 3 ⟨true, 0, 0⟩ (List.replicate 4 ⟨false, false⟩)
     (by intro e he; constructor <;> simp [List.eq_of_mem_replicate he]) rfl (by decide)⟩

/-! ## Claim C9: aggregator client retry / single-flight / delay -/

/-- Helper: the retry loop makes at most `attempt + fuel` attempts. -/
theorem search_attempts_le (env : Nat → AttemptOutcome) (max_retries : Nat) :
    ∀ fuel attempt,
      (search_attempts env max_retries fuel attempt).attempts ≤ attempt + fuel := by
  intro fuel
  induction fuel with
  | zero => intro attempt; simp [search_attempts]
  | succ n ih =>
      intro attempt
      rw [search_attempts]
      cases env attempt with
      | success items => simp
      | timeout =>
          by_cases hl : attempt == max_retries - 1
          · simp [hl]
          · simp only [hl, Bool.false_eq_true, if_false]
            have := ih (attempt + 1)
            simp only at this ⊢
            omega
      | connError =>
          by_cases hl : attempt == max_retries - 1
          · simp [hl]
          · simp only [hl, Bool.false_eq_true, if_false]
            have := ih (attempt + 1)
            simp only at this ⊢
            omega
      | httpStatus c => simp
      | otherError => simp

/-- Helper: with only transient outcomes, the loop visits every attempt,
sleeping `2^attempt` between attempts, and finally returns `[]`. -/
theorem search_attempts_transient (env : Nat → AttemptOutcome) (max_retries : Nat) :
    ∀ fuel attempt, 1 ≤ fuel → attempt + fuel = max_retries →
      (∀ i, attempt ≤ i → i < max_retries → isTransient (env i) = true) →
      search_attempts env max_retries fuel attempt
        = { result := [], attempts := max_retries,
            sleeps := (List.range' attempt (fuel - 1)).map (2 ^ ·) } := by
  intro fuel
  induction fuel with
  | zero => intro attempt h; omega
  | succ n ih =>
      intro attempt _ htot htrans
      have hta : isTransient (env attempt) = true :=
        htrans attempt le_rfl (by omega)
      cases n with
      | zero =>
          have hl : (attempt == max_retries - 1) = true := by
            simp only [beq_iff_eq]; omega
          rw [search_attempts]
          cases henv : env attempt with
          | success items => rw [henv] at hta; simp [isTransient] at hta
          | httpStatus c => rw [henv] at hta; simp [isTransient] at hta
          | otherError => rw [henv] at hta; simp [isTransient] at hta
          | timeout => simp only [hl, if_true]; simp; omega
          | connError => simp only [hl, if_true]; simp; omega
      | succ m =>
          have hl : (attempt == max_retries - 1) = false := by
            simp only [beq_eq_false_iff_ne, ne_eq]; omega
          have hrec := ih (attempt + 1) (by omega) (by omega)
            (fun i hi hi2 => htrans i (by omega) hi2)
          rw [search_attempts]
          cases henv : env attempt with
          | success items => rw [henv] at hta; simp [isTransient] at hta
          | httpStatus c => rw [henv] at hta; simp [isTransient] at hta
          | otherError => rw [henv] at hta; simp [isTransient] at hta
          | timeout =>
              simp only [hl, Bool.false_eq_true, if_false, hrec]
              simp only [List.range'_succ, List.map_cons, Nat.succ_sub_one]
          | connError =>
              simp only [hl, Bool.false_eq_true, if_false, hrec]
              simp only [List.range'_succ, List.map_cons, Nat.succ_sub_one]

/-- Helper: a non-retried outcome (HTTP status error) hit at attempt `i`,
after transient outcomes only, ends the call at attempt `i + 1` with an
empty result. -/
theorem search_attempts_http (env : Nat → AttemptOutcome) (max_retries : Nat) :
    ∀ fuel attempt i c, attempt ≤ i → i < attempt + fuel →
      attempt + fuel ≤ max_retries →
      (∀ j, attempt ≤ j → j < i → isTransient (env j) = true) →
      env i = .httpStatus c →
      search_attempts env max_retries fuel attempt
        = { result := [], attempts := i + 1,
            sleeps := (List.range' attempt (i - attempt)).map (2 ^ ·) } := by
  intro fuel
  induction fuel with
  | zero => intro attempt i c h1 h2; omega
  | succ n ih =>
      intro attempt i c h1 h2 hmax htrans henv
      by_cases heq : attempt = i
      · subst heq
        rw [search_attempts, henv]
        simp
      · have hlt : attempt < i := lt_of_le_of_ne h1 heq
        have hta : isTransient (env attempt) = true := htrans attempt le_rfl hlt
        have hl : (attempt == max_retries - 1) = false := by
          simp only [beq_eq_false_iff_ne, ne_eq]; omega
        have hrec := ih (attempt + 1) i c (by omega) (by omega) (by omega)
          (fun j hj hj2 => htrans j (by omega) hj2) henv
        rw [search_attempts]
        cases henv2 : env attempt with
        | success items => rw [henv2] at hta; simp [isTransient] at hta
        | httpStatus c2 => rw [henv2] at hta; simp [isTransient] at hta
        | otherError => rw [henv2] at hta; simp [isTransient] at hta
        | timeout =>
            simp only [hl, Bool.false_eq_true, if_false, hrec]
            have hr : i - attempt = (i - (attempt + 1)) + 1 := by omega
            rw [hr, List.range'_succ, List.map_cons]
        | connError =>
            simp only [hl, Bool.false_eq_true, if_false, hrec]
            have hr : i - attempt = (i - (attempt + 1)) + 1 := by omega
            rw [hr, List.range'_succ, List.map_cons]

/-- Helper: semaphore occupancy never exceeds the capacity. -/
theorem sem_reach_le (cap : Nat) : ∀ n, SemReach cap n → n ≤ cap := by
  intro n h
  induction h with
  | init => exact Nat.zero_le cap
  | enter _ hlt _ => omega
  | leave _ ih => omega

/-- C9: the aggregator client's concurrency, pacing and retry behavior.
Conjuncts: (1) the single-flight semaphore (capacity
`max_concurrent_requests`, default 1) never admits more than its capacity,
so at most one request is in flight under the default; (2) the enforced
issue time is `max(now, last + request_delay)`, hence successive requests
are at least `request_delay` apart; (3) at most `max_retries` attempts are
ever made; (4) when every attempt fails transiently, all `max_retries`
attempts are made with backoff sleeps `2^0, …, 2^(max_retries−2)` and the
result is empty; (5) an HTTP status error ends the call immediately
(attempt `i + 1` is the last) with an empty result and no further
backoff. -/
theorem C9_client_retry_and_pacing :
    (∀ (cap n : Nat), SemReach cap n → n ≤ cap) ∧
    (∀ n : Nat, SemReach openserp_max_concurrent_default n → n ≤ 1) ∧
    (∀ last now delay : ℚ,
      rate_limited_issue_time last now delay = max now (last + delay) ∧
      last + delay ≤ rate_limited_issue_time last now delay) ∧
    (∀ (env : Nat → AttemptOutcome) (max_retries : Nat),
      (search_products env max_retries).attempts ≤ max_retries) ∧
    (∀ (env : Nat → AttemptOutcome) (max_retries : Nat),
      (∀ i, i < max_retries → isTransient (env i) = true) →
      search_products env max_retries
        = { result := [], attempts := max_retries,
            sleeps := (List.range (max_retries - 1)).map (2 ^ ·) }) ∧
    (∀ (env : Nat → AttemptOutcome) (max_retries i c : Nat),
      i < max_retries →
      (∀ j, j < i → isTransient (env j) = true) →
      env i = .httpStatus c →
      search_products env max_retries
        = { result := [], attempts := i + 1,
            sleeps := (List.range i).map (2 ^ ·) }) := by
  refine ⟨sem_reach_le, sem_reach_le 1, ?_, ?_, ?_, ?_⟩
  · intro last now delay
    have hmax : rate_limited_issue_time last now delay = max now (last + delay) := by
      rw [rate_limited_issue_time]
      by_cases h : now - last < delay
      · rw [if_pos h, max_eq_right (by linarith)]
      · rw [if_neg h, max_eq_left (by push_neg at h; linarith)]
    exact ⟨hmax, by rw [hmax]; exact le_max_right _ _⟩
  · intro env max_retries
    have := search_attempts_le env max_retries max_retries 0
    simpa [search_products] using this
  · intro env max_retries htrans
    cases max_retries with
    | zero => rfl
    | succ m =>
        have := search_attempts_transient env (m + 1) (m + 1) 0 (by omega) (by omega)
          (fun i _ hi => htrans i hi)
        rw [search_products, this, List.range_eq_range']
  · intro env max_retries i c hi htrans henv
    have := search_attempts_http env max_retries max_retries 0 i c (Nat.zero_le i)
      (by omega) (by omega) (fun j _ hj => htrans j hj) henv
    rw [search_products, this, List.range_eq_range']
    rfl

/-- C9 witness: with every attempt timing out and the default
`max_retries = 3`, the call makes exactly 3 attempts, sleeps `1` then `2`
seconds, and returns no candidates; a lone holder saturates the default
semaphore; and a request arriving immediately after the previous one is
pushed to `last + delay`. -/
theorem C9_client_retry_and_pacing_witness :
    ((0 : Nat) ≤ 1) ∧
    (search_products (fun _ => .timeout) 3
      = { result := [], attempts := 3, sleeps := (List.range 2).map (2 ^ ·) }) ∧
    rate_limited_issue_time 10 10 2 = max 10 ((10:ℚ) + 2) :=
  ⟨C9_client_retry_and_pacing.2.1 0 SemReach.init,
   C9_client_retry_and_pacing.2.2.2.2.1 (fun _ => .timeout) 3
     (fun _ _ => rfl),
   (C9_client_retry_and_pacing.2.2.1 10 10 2).1⟩

/-! ## Claim C3: circuit-breaker monotonicity -/

/-- Helper: `set.add` keeps every existing member. -/
theorem mem_addFailed_of_mem (failed : List String) (s x : String)
    (h : x ∈ failed) : x ∈ addFailed failed s := by
  rw [addFailed]
  split
  · exact h
  · exact List.mem_cons_of_mem _ h

/-- Helper: `set.add` adds at most the given element. -/
theorem mem_addFailed (failed : List String) (s x : String)
    (h : x ∈ addFailed failed s) : x ∈ failed ∨ x = s := by
  rw [addFailed] at h
  split at h
  · exact Or.inl h
  · rcases List.mem_cons.mp h with h1 | h1
    · exact Or.inr h1
    · exact Or.inl h1

/-- Helper: one classification step never removes a disabled source. -/
theorem classify_error_mono (failed : List String) (msg : String) :
    failed ⊆ classify_error failed msg := by
  intro x hx
  rw [classify_error]
  split_ifs <;> first | exact hx | exact mem_addFailed_of_mem _ _ _ hx

/-- Helper: one classification step adds only the five disableable source
names. -/
theorem classify_error_adds_disableable (failed : List String) (msg : String)
    (s : String) (h : s ∈ classify_error failed msg) :
    s ∈ failed ∨ s ∈ disableable_sources := by
  rw [classify_error] at h
  split_ifs at h <;>
    first
    | exact Or.inl h
    | (rcases mem_addFailed _ _ _ h with h1 | h1
       · exact Or.inl h1
       · subst h1; exact Or.inr (by decide))

/-- Helper: a whole call's classification never removes a disabled source. -/
theorem classify_errors_mono (failed : List String) (msgs : List String) :
    failed ⊆ classify_errors failed msgs := by
  induction msgs generalizing failed with
  | nil => exact fun x hx => hx
  | cons m rest ih =>
      intro x hx
      exact ih (classify_error failed m) (classify_error_mono failed m hx)

/-- Helper: a whole call's classification adds only disableable sources. -/
theorem classify_errors_adds_disableable (failed : List String) (msgs : List String)
    (s : String) (h : s ∈ classify_errors failed msgs) :
    s ∈ failed ∨ s ∈ disableable_sources := by
  induction msgs generalizing failed with
  | nil => exact Or.inl h
  | cons m rest ih =>
      rcases ih (classify_error failed m) h with h1 | h1
      · rcases classify_error_adds_disableable failed m s h1 with h2 | h2
        · exact Or.inl h2
        · exact Or.inr h2
      · exact Or.inr h1

/-- Helper: the session fold never removes a disabled source. -/
theorem session_fold_mono (calls : List (List String)) (init : List String) :
    init ⊆ calls.foldl classify_errors init := by
  induction calls generalizing init with
  | nil => exact fun x hx => hx
  | cons c rest ih =>
      intro x hx
      exact ih (classify_errors init c) (classify_errors_mono init c hx)

/-- Helper: the session's disabled set contains only disableable sources. -/
theorem session_fold_disableable (calls : List (List String)) (init : List String)
    (hinit : ∀ s ∈ init, s ∈ disableable_sources) :
    ∀ s ∈ calls.foldl classify_errors init, s ∈ disableable_sources := by
  induction calls generalizing init with
  | nil => exact hinit
  | cons c rest ih =>
      refine ih (classify_errors init c) ?_
      intro s hs
      rcases classify_errors_adds_disableable init c s hs with h1 | h1
      · exact hinit s h1
      · exact h1

/-- Helper: membership in one guarded fan-out component forces the guard. -/
theorem mem_if_source (failed : List String) (c : Bool) (name s : String)
    (h : s ∈ (if c && !failed.contains name then [name] else [])) :
    s = name ∧ failed.contains name = false := by
  split at h
  · rename_i hcond
    rw [Bool.and_eq_true] at hcond
    have hs := List.mem_singleton.mp h
    exact ⟨hs, by simpa using hcond.2⟩
  · simp at h

/-- Helper: every source selected by a fan-out step either is `vector_db`
(which no branch ever disables) or is absent from `_failed_sources`. -/
theorem selected_sources_not_failed (cfg : SearchConfig) (failed : List String)
    (s : String) (h : s ∈ selected_sources cfg failed) :
    s = "vector_db" ∨ failed.contains s = false := by
  rw [selected_sources] at h
  simp only [List.mem_append] at h
  rcases h with ((((((h | h) | h) | h) | h) | h) | h) | h
  · rcases mem_if_source failed _ _ _ h with ⟨rfl, hc⟩
    exact Or.inr hc
  · rcases mem_if_source failed _ _ _ h with ⟨rfl, hc⟩
    exact Or.inr hc
  · rcases mem_if_source failed _ _ _ h with ⟨rfl, hc⟩
    exact Or.inr hc
  · rcases mem_if_source failed _ _ _ h with ⟨rfl, hc⟩
    exact Or.inr hc
  · revert h
    split
    · rename_i hcond
      rw [Bool.and_eq_true] at hcond
      intro h
      have hs := List.mem_singleton.mp h
      subst hs
      exact Or.inr (by simpa using hcond.2)
    · intro h
      rcases mem_if_source failed _ _ _ h with ⟨rfl, hc⟩
      exact Or.inr hc
  · rcases mem_if_source failed _ _ _ h with ⟨rfl, hc⟩
    exact Or.inr hc
  · revert h
    split
    · intro h
      have hs := List.mem_singleton.mp h
      exact Or.inl hs
    · intro h
      simp at h
  · rcases mem_if_source failed _ _ _ h with ⟨rfl, hc⟩
    exact Or.inr hc

/-- C3: circuit-breaker monotonicity.  Conjuncts: (1) classification only
grows `_failed_sources`; (2) everything it adds is one of the five
disableable sources; (3) a disableable source in `_failed_sources` is never
selected by the fan-out; (4) over a whole session (fold of calls from the
empty set), a source disabled after call `n` is absent from the task list
of every later call `m ≥ n`. -/
theorem C3_circuit_breaker_monotone :
    (∀ (failed : List String) (msgs : List String),
      failed ⊆ classify_errors failed msgs) ∧
    (∀ (failed : List String) (msgs : List String) (s : String),
      s ∈ classify_errors failed msgs → s ∈ failed ∨ s ∈ disableable_sources) ∧
    (∀ (cfg : SearchConfig) (failed : List String) (s : String),
      s ∈ disableable_sources → s ∈ failed →
      s ∉ selected_sources cfg failed) ∧
    (∀ (cfg : SearchConfig) (calls : List (List String)) (n m : Nat), n ≤ m →
      ∀ s ∈ session_failed (calls.take n),
        s ∉ selected_sources cfg (session_failed (calls.take m))) := by
  have skip : ∀ (cfg : SearchConfig) (failed : List String) (s : String),
      s ∈ disableable_sources → s ∈ failed → s ∉ selected_sources cfg failed := by
    intro cfg failed s hdis hfailed hsel
    rcases selected_sources_not_failed cfg failed s hsel with hvec | hcontains
    · subst hvec
      exact absurd hdis (by decide)
    · have h2 : failed.contains s = true := List.elem_eq_true_of_mem hfailed
      rw [h2] at hcontains
      simp at hcontains
  refine ⟨classify_errors_mono, classify_errors_adds_disableable, skip, ?_⟩
  intro cfg calls n m hnm s hs
  have hmono : session_failed (calls.take n) ⊆ session_failed (calls.take m) := by
    have hsplit : calls.take m = calls.take n ++ (calls.take m).drop n := by
      conv_lhs => rw [← List.take_append_drop n (calls.take m)]
      rw [List.take_take, Nat.min_eq_left hnm]
    rw [hsplit]
    simp only [session_failed]
    rw [List.foldl_append]
    exact session_fold_mono _ _
  have hdis : s ∈ disableable_sources :=
    session_fold_disableable (calls.take n) [] (by intro s' hs'; simp at hs') s hs
  exact skip cfg _ s hdis (hmono hs)

/-- C3 witness: a session whose first call fails with an Oxylabs `401`
never fans out to Oxylabs again. -/
theorem C3_circuit_breaker_monotone_witness :
    "oxylabs" ∉ selected_sources
      ⟨true, true, true, true, true, true, true, true, true⟩
      (session_failed ([["Oxylabs: 401 Unauthorized"]].take 1)) :=
  C3_circuit_breaker_monotone.2.2.2
    ⟨true, true, true, true, true, true, true, true, true⟩
    [["Oxylabs: 401 Unauthorized"]] 1 1 le_rfl "oxylabs" (by decide)

/-! ## Claim C4: browser-pool capacity -/

/-- Helper: reachable pool states keep `avail i + leased i = C` on every
browser index. -/
theorem pool_reach_inv (P C : Nat) (s : PoolState) (h : PoolReach P C s) :
    ∀ i, i < P → s.avail i + s.leased i = C := by
  induction h with
  | init => intro i _; simp [initPool]
  | @step s1 t1 hr hstep ih =>
      intro i hi
      cases hstep with
      | acquire havail =>
          dsimp only
          by_cases heq : i = s1.rr % P
          · subst heq
            rw [Function.update_same, Function.update_same]
            have := ih _ hi
            omega
          · rw [Function.update_noteq heq, Function.update_noteq heq]
            exact ih i hi
      | acquireBlocked havail =>
          dsimp only
          exact ih i hi
      | release j hj hl =>
          dsimp only
          by_cases heq : i = j
          · subst heq
            rw [Function.update_same, Function.update_same]
            have := ih _ hi
            omega
          · rw [Function.update_noteq heq, Function.update_noteq heq]
            exact ih i hi

/-- C4: pool capacity and blocking.  Conjuncts: (1) in every reachable pool
state each browser has at most `contexts_per_browser` contexts leased and
at most `pool_size × contexts_per_browser` are leased in total; (2) an
acquire attempt never produces the failure outcome — its only outcomes are
a granted context or a suspension on the queue; (3) a blocked acquire on a
nonempty pool is unblocked by a release on the awaited browser: the release
step exists and refills that browser's queue. -/
theorem C4_pool_capacity_and_blocking :
    (∀ (P C : Nat) (s : PoolState), PoolReach P C s →
      (∀ i, i < P → s.leased i ≤ C) ∧ totalLeased P s ≤ P * C) ∧
    (∀ (P : Nat) (s : PoolState), acquire_outcome P s ≠ .failure) ∧
    (∀ (P C : Nat) (s : PoolState), PoolReach P C s → 0 < P → 0 < C →
      acquire_outcome P s = .blocked →
      ∃ t, PoolStep P C s t ∧ 0 < t.avail (s.rr % P)) := by
  refine ⟨?_, ?_, ?_⟩
  · intro P C s h
    have hinv := pool_reach_inv P C s h
    have hle : ∀ i, i < P → s.leased i ≤ C := by
      intro i hi
      have := hinv i hi
      omega
    refine ⟨hle, ?_⟩
    calc totalLeased P s ≤ (Finset.range P).card • C := by
          apply Finset.sum_le_card_nsmul
          intro i hi
          exact hle i (Finset.mem_range.mp hi)
      _ = P * C := by rw [Finset.card_range, smul_eq_mul]
  · intro P s
    rw [acquire_outcome]
    split <;> simp
  · intro P C s h hP hC hblocked
    have hzero : s.avail (s.rr % P) = 0 := by
      rw [acquire_outcome] at hblocked
      by_cases hav : 0 < s.avail (s.rr % P)
      · rw [if_pos hav] at hblocked
        exact absurd hblocked (by simp)
      · omega
    have hmod : s.rr % P < P := Nat.mod_lt _ hP
    have hinv := pool_reach_inv P C s h (s.rr % P) hmod
    have hleased : 0 < s.leased (s.rr % P) := by omega
    refine ⟨_, PoolStep.release s (s.rr % P) hmod hleased, ?_⟩
    simp only [Function.update_same]
    omega

/-- C4 witness: the invariants at the initialized 3×5 pool, and the
unblocking release in the saturated 1×1 pool. -/
theorem C4_pool_capacity_and_blocking_witness :
    ((∀ i, i < 3 → (initPool 5).leased i ≤ 5) ∧ totalLeased 3 (initPool 5) ≤ 3 * 5) ∧
    acquire_outcome 3 (initPool 5) ≠ .failure ∧
    (∃ t, PoolStep 1 1 poolBlockedState t ∧ 0 < t.avail (poolBlockedState.rr % 1)) :=
  ⟨C4_pool_capacity_and_blocking.1 3 5 (initPool 5) PoolReach.init,
   C4_pool_capacity_and_blocking.2.1 3 (initPool 5),
   C4_pool_capacity_and_blocking.2.2 1 1 poolBlockedState
     (PoolReach.step PoolReach.init (PoolStep.acquire (initPool 1) (by decide)))
     (by decide) (by decide) (by decide)⟩

/-! ## Claim C1: orchestrator output -/

/-- Helper: ranking permutes its input — every ranked product came in. -/
theorem mem_of_mem_rank_products (l : List Product) (budget : Budget)
    (brands : List String) (p : Product)
    (h : p ∈ rank_products l budget brands) : p ∈ l := by
  rw [rank_products] at h
  rcases List.mem_map.mp h with ⟨x, hx, hxe⟩
  have hx2 : x ∈ l.map (fun q =>
      (rank_score budget.softCap budget.hardCap brands q, q)) :=
    (List.mergeSort_perm _ _).mem_iff.mp hx
  rcases List.mem_map.mp hx2 with ⟨q, hq, he⟩
  rw [← hxe, ← he]
  exact hq

/-- Helper: `_rank_products` returns its products in descending
`rank_score` order (the stable sort is on the score component of the
`(score, product)` pairs). -/
theorem rank_products_sorted (l : List Product) (budget : Budget)
    (brands : List String) :
    List.Sorted (fun a b =>
        rank_score budget.softCap budget.hardCap brands b
          ≤ rank_score budget.softCap budget.hardCap brands a)
      (rank_products l budget brands) := by
  rw [rank_products]
  have htrans : ∀ a b c : ℚ × Product,
      (fun x y : ℚ × Product => decide (y.1 ≤ x.1)) a b = true →
      (fun x y : ℚ × Product => decide (y.1 ≤ x.1)) b c = true →
      (fun x y : ℚ × Product => decide (y.1 ≤ x.1)) a c = true := by
    intro a b c hab hbc
    simp only [decide_eq_true_eq] at *
    exact le_trans hbc hab
  have htotal : ∀ a b : ℚ × Product,
      ((fun x y : ℚ × Product => decide (y.1 ≤ x.1)) a b ||
       (fun x y : ℚ × Product => decide (y.1 ≤ x.1)) b a) = true := by
    intro a b
    simp only [Bool.or_eq_true, decide_eq_true_eq]
    exact le_total b.1 a.1
  have hsorted := List.sorted_mergeSort htrans htotal
    (l.map (fun q => (rank_score budget.softCap budget.hardCap brands q, q)))
  have hmem : ∀ x ∈ (l.map (fun q =>
      (rank_score budget.softCap budget.hardCap brands q, q))).mergeSort
        (fun x y : ℚ × Product => decide (y.1 ≤ x.1)),
      x.1 = rank_score budget.softCap budget.hardCap brands x.2 := by
    intro x hx
    have hx2 := (List.mergeSort_perm _ _).mem_iff.mp hx
    rcases List.mem_map.mp hx2 with ⟨q, _, he⟩
    rw [← he]
  refine List.pairwise_map.mpr ?_
  refine hsorted.imp_of_mem ?_
  intro a b ha hb hab
  have ha1 := hmem a ha
  have hb1 := hmem b hb
  simp only [decide_eq_true_eq] at hab
  rw [← ha1, ← hb1]
  exact hab

/-- C1 (counterexample): a product marked out of stock
(`availability_status = "out_of_stock"`, `in_stock = False`) and carrying
no price passes deduplication, `_apply_filters` (which checks only price
and retailer, never availability) and ranking, and is returned — the
claim's "no returned product is out of stock" and "every returned
product's price is at most hard_cap" both fail on it. -/
theorem C1_pipeline_counterexample :
    c1OutOfStockProduct ∈ search_pipeline [c1OutOfStockProduct] c1Budget none [] 5 ∧
    c1OutOfStockProduct.in_stock = false ∧
    c1OutOfStockProduct.availability_status = "out_of_stock" ∧
    c1OutOfStockProduct.price = none := by
  refine ⟨?_, rfl, rfl, rfl⟩
  simp [search_pipeline, deduplicate_products, dedupAux, lookupSeen, apply_filters,
    priceOk, retailerOk, rank_products, List.mergeSort, c1OutOfStockProduct]

/-- C1 (amended): the deterministic tail of `search_multi_source` returns
at most `k` products, every returned product that has a price has price at
most `budget.get("hard_cap", 300)`, and the list is sorted by descending
`_rank_products` score.  (Out-of-stock products are not filtered — stock
only contributes a 15% scoring bonus — and unpriced products bypass the
price cap.) -/
theorem C1_pipeline_amended (all_products : List Product) (budget : Budget)
    (allow : Option (List String)) (brands : List String) (k : Nat) :
    (search_pipeline all_products budget allow brands k).length ≤ k ∧
    (∀ p ∈ search_pipeline all_products budget allow brands k,
      ∀ pr : ℚ, p.price = some pr → pr ≤ budget.hardCap) ∧
    List.Sorted (fun a b =>
        rank_score budget.softCap budget.hardCap brands b
          ≤ rank_score budget.softCap budget.hardCap brands a)
      (search_pipeline all_products budget allow brands k) := by
  refine ⟨?_, ?_, ?_⟩
  · rw [search_pipeline]
    exact List.length_take_le _ _
  · intro p hp pr hpr
    rw [search_pipeline] at hp
    have hp2 := List.take_subset _ _ hp
    have hp3 := mem_of_mem_rank_products _ _ _ _ hp2
    rw [apply_filters, List.mem_filter] at hp3
    have hok := hp3.2
    rw [Bool.and_eq_true] at hok
    have hprice := hok.1
    rw [priceOk, hpr] at hprice
    simp only [Bool.not_eq_true', decide_eq_false_iff_not, not_lt] at hprice
    exact hprice
  · rw [search_pipeline]
    exact List.Pairwise.sublist (List.take_sublist _ _)
      (rank_products_sorted _ _ _)

/-- C1 amended witness: the amended guarantees at a concrete two-product
merge with the scenario budget and `k = 1`. -/
theorem C1_pipeline_amended_witness :
    (search_pipeline [c1OutOfStockProduct, c8PriceyProduct] c1Budget none [] 1).length ≤ 1 ∧
    (∀ p ∈ search_pipeline [c1OutOfStockProduct, c8PriceyProduct] c1Budget none [] 1,
      ∀ pr : ℚ, p.price = some pr → pr ≤ c1Budget.hardCap) ∧
    List.Sorted (fun a b =>
        rank_score c1Budget.softCap c1Budget.hardCap [] b
          ≤ rank_score c1Budget.softCap c1Budget.hardCap [] a)
      (search_pipeline [c1OutOfStockProduct, c8PriceyProduct] c1Budget none [] 1) :=
  C1_pipeline_amended [c1OutOfStockProduct, c8PriceyProduct] c1Budget none [] 1

end FashionRec
